import Mathlib

/-!
# Serial: DataValue and DataTranslator

A shallow embedding of `DataValue` (include/DataValue.hpp, src/DataValue.cpp)
and `DataTranslator<T>` (include/DataTranslator.hpp,
include/detail/DataTranslator.inl), followed by theorems about them.

Conventions of the embedding.

* Fixed-width integers are `Int` values; a conversion to a `w`-bit type is the
  explicit reduction `wrap_unsigned w` / `wrap_signed w`.
* The tagged union `m_type` / `m_data` is the sum type `DataValue`, one
  constructor per `data_type`, carrying the union member that is active for
  that tag.  `std::vector<data_entry>` is a `List`, `std::map<std::string, V>`
  is the list of its entries in key order.
* A `DataValue` of the embedding holds a constructed payload.  The members that
  set the tag `type_array` or `type_object` without constructing a container
  (`set_array`, `set_object`, `DataValue( data_type )`) give a `node`, which is
  a `DataValue` or one of the two bare states.
* An operation whose behaviour is undefined in the source has no result:
  `none`, or `outcome.undefined`.
* A `double` or `float` is the dyadic number it denotes (`Double`).
* A member pointer `X value_type::*` is the index of the field it designates
  among the fields of type `X` of the host structure.
-/

namespace serial

/-! ## Fixed-width integers -/

/-- Conversion to an unsigned integer type of `w` bits. -/
def wrap_unsigned (w : Nat) (n : Int) : Int := n % 2 ^ w

/-- Conversion to a signed (two's complement) integer type of `w` bits; also
the result taken for a signed operation whose exact result leaves the type. -/
def wrap_signed (w : Nat) (n : Int) : Int := (n + 2 ^ (w - 1)) % 2 ^ w - 2 ^ (w - 1)

def int32_t_min : Int := -2147483648
def int32_t_max : Int := 2147483647
def uint32_t_min : Int := 0
def uint32_t_max : Int := 4294967295
def int64_t_min : Int := -9223372036854775808
def int64_t_max : Int := 9223372036854775807
def uint64_t_min : Int := 0
def uint64_t_max : Int := 18446744073709551615

/-! ## Floating point values -/

/-- An IEEE-754 value: not-a-number, an infinity, or the finite value
`m * 2 ^ e`.  Both `double` and `float` values are dyadic numbers of this
form; the sign of a zero is not recorded. -/
inductive Double where
  | nan
  | inf (negative : Bool)
  | finite (m : Int) (e : Int)
deriving DecidableEq, Repr

namespace Double

/-- Numerator of `m * 2 ^ e` over the denominator `2 ^ (-e0)`, for `e0 ≤ e`. -/
def scale (m e e0 : Int) : Int := m * 2 ^ (e - e0).toNat

/-- The comparison `a < b` of two floating point values (false when either is
not-a-number). -/
def lt : Double → Double → Bool
  | finite m1 e1, finite m2 e2 => decide (scale m1 e1 (min e1 e2) < scale m2 e2 (min e1 e2))
  | inf true, inf false => true
  | inf true, finite _ _ => true
  | finite _ _, inf false => true
  | _, _ => false

/-- The comparison `a == b` of two floating point values (false when either is
not-a-number). -/
def eq : Double → Double → Bool
  | finite m1 e1, finite m2 e2 => decide (scale m1 e1 (min e1 e2) = scale m2 e2 (min e1 e2))
  | inf s1, inf s2 => s1 == s2
  | _, _ => false

/-- The comparison `a <= b`. -/
def le (a b : Double) : Bool := lt a b || eq a b

/-- The comparison `a > b`. -/
def gt (a b : Double) : Bool := lt b a

/-- The comparison `a >= b`. -/
def ge (a b : Double) : Bool := le b a

/-- The comparison `a != b` (true when either is not-a-number). -/
def ne (a b : Double) : Bool := !eq a b

/-- Number of binary digits of `n`, with `fuel` bounding the recursion. -/
def bit_length_aux : Nat → Nat → Nat
  | 0, _ => 0
  | fuel + 1, n => if n = 0 then 0 else bit_length_aux fuel (n / 2) + 1

/-- Number of binary digits of `n` (0 for 0). -/
def bit_length (n : Nat) : Nat := bit_length_aux n n

/-- Drop the low `s` bits of `n`, rounding to nearest, ties to even. -/
def round_shift (n s : Nat) : Nat :=
  if 2 ^ s < 2 * (n % 2 ^ s) ∨ (2 * (n % 2 ^ s) = 2 ^ s ∧ (n / 2 ^ s) % 2 = 1)
  then n / 2 ^ s + 1 else n / 2 ^ s

/-- Round to the binary format with `p` significant bits and exponents of the
leading bit between `emin` and `emax` (round to nearest, ties to even, gradual
underflow, overflow to infinity). -/
def round (p : Nat) (emin emax : Int) : Double → Double
  | finite m e =>
    let lead : Int := (bit_length m.natAbs : Int) - 1 + e
    let qe : Int := max lead emin - ((p : Int) - 1)
    let r : Double :=
      if qe ≤ e then finite m e
      else finite (Int.sign m * (round_shift m.natAbs (qe - e).toNat : Int)) qe
    match r with
    | finite m1 e1 =>
      if emax < (bit_length m1.natAbs : Int) - 1 + e1 then inf (decide (m < 0)) else r
    | other => other
  | d => d

/-- The conversion `static_cast<double>(n)` of an integer. -/
def ofInt (n : Int) : Double := round 53 (-1022) 1023 (finite n 0)

/-- The conversion `(float) d` of a double. -/
def toFloat (d : Double) : Double := round 24 (-126) 127 d

/-- The integer part of a floating point value, discarding the fraction
(rounding toward zero); 0 for an infinity or not-a-number. -/
def trunc : Double → Int
  | finite m e => if 0 ≤ e then m * 2 ^ e.toNat else Int.tdiv m (2 ^ (-e).toNat)
  | _ => 0

/-- The conversion `static_cast<I>(d)` to a signed integer type of `w` bits.
C++ defines it when the integer part of `d` is representable in `I`; there it
is `trunc d`.  Elsewhere the behaviour is undefined and the embedding reduces
the integer part to the type. -/
def toSigned (w : Nat) (d : Double) : Int := wrap_signed w (trunc d)

/-- The conversion `static_cast<U>(d)` to an unsigned integer type of `w`
bits, under the same convention as `toSigned`. -/
def toUnsigned (w : Nat) (d : Double) : Int := wrap_unsigned w (trunc d)

end Double

/-! ## Ordered maps keyed by strings -/

/-- Lexicographic comparison of two character sequences, the order
`std::less<std::string>` puts on the keys of a `std::map`. -/
def chars_less : List Char → List Char → Bool
  | [], [] => false
  | [], _ :: _ => true
  | _ :: _, [] => false
  | a :: as, b :: bs =>
    if a.toNat < b.toNat then true
    else if b.toNat < a.toNat then false
    else chars_less as bs

/-- The key order `a < b` of a `std::map<std::string, V>`. -/
def key_less (a b : String) : Bool := chars_less a.data b.data

/-- The invariant of a `std::map<std::string, V>`: the entries are in strictly
increasing key order (so no key occurs twice). -/
def sorted_keys {V : Type} (m : List (String × V)) : Prop :=
  List.Pairwise (fun x y => key_less x.1 y.1 = true) m

/-- The lookup `m.find(key)`: the mapped value, or `none` for `m.end()`. -/
def map_find {V : Type} (m : List (String × V)) (key : String) : Option V :=
  match m with
  | [] => none
  | (k, v) :: rest => if k = key then some v else map_find rest key

/-- The assignment `m[key] = v`: replaces the value of an existing entry, or
inserts a new entry at its place in key order. -/
def map_assign {V : Type} (m : List (String × V)) (key : String) (v : V) : List (String × V) :=
  match m with
  | [] => [(key, v)]
  | (k, w) :: rest =>
    if key_less key k then (key, v) :: (k, w) :: rest
    else if key_less k key then (k, w) :: map_assign rest key v
    else (key, v) :: rest

/-! ## DataValue -/

/-- Enumeration of the possible data types (`DataValue::data_type`), in
declaration order. -/
inductive data_type where
  | type_null
  | type_bool
  | type_int
  | type_uint
  | type_int64
  | type_uint64
  | type_double
  | type_string
  | type_array
  | type_object
deriving DecidableEq, Repr

/-- The integral value of an enumerator, `static_cast<int>(t)`. -/
def data_type.toInt : data_type → Int
  | .type_null => 0
  | .type_bool => 1
  | .type_int => 2
  | .type_uint => 3
  | .type_int64 => 4
  | .type_uint64 => 5
  | .type_double => 6
  | .type_string => 7
  | .type_array => 8
  | .type_object => 9

/-- A `DataValue`: the tag `m_type` together with the member of `m_data` that
is active for it.  `array` holds the elements of `m_data.m_array` in order,
`object` the entries of `m_data.m_object` in key order; both stand for a
container that has been constructed (by `new (&m_data) array_values()` /
`new (&m_data) object_values()` in the copy constructor or in `operator =`). -/
inductive DataValue where
  | null
  | bool (m_bool : Bool)
  | int (m_int : Int)
  | uint (m_uint : Int)
  | int64 (m_int64 : Int)
  | uint64 (m_uint64 : Int)
  | double (m_double : Double)
  | string (m_string : String)
  | array (m_array : List DataValue)
  | object (m_object : List (String × DataValue))

/-- The state of a node after a member that may leave it without a container.
`constructed value` is a node whose payload is constructed.  `bare_array` and
`bare_object` are the tag `type_array` / `type_object` over a union `m_data`
in which no `std::vector` / `std::map` was ever constructed: its first
pointer-sized word is null (the `m_null` of `data_union()`, or the null
`std::unique_ptr` that `set_array` / `set_object` construct there) and the
rest of its storage is whatever it was.  Members that read only `m_type` and
that first word are defined on a bare node; members that use `m_data.m_array`
or `m_data.m_object` are not. -/
inductive node where
  | constructed (value : DataValue)
  | bare_array
  | bare_object

namespace DataValue

/-- The tag `m_type` (`DataValue::type`). -/
def type : DataValue → data_type
  | null => .type_null
  | bool _ => .type_bool
  | int _ => .type_int
  | uint _ => .type_uint
  | int64 _ => .type_int64
  | uint64 _ => .type_uint64
  | double _ => .type_double
  | string _ => .type_string
  | array _ => .type_array
  | object _ => .type_object

/-- The payload of a scalar is in the range of its C++ type. -/
def in_range : DataValue → Bool
  | int x => decide (int32_t_min ≤ x ∧ x ≤ int32_t_max)
  | uint x => decide (uint32_t_min ≤ x ∧ x ≤ uint32_t_max)
  | int64 x => decide (int64_t_min ≤ x ∧ x ≤ int64_t_max)
  | uint64 x => decide (uint64_t_min ≤ x ∧ x ≤ uint64_t_max)
  | _ => true

/-! ### Constructors from scalars (DataValue.cpp 72-113) -/

/-- The constructor `DataValue( bool x )`. -/
def from_bool (x : Bool) : DataValue := bool x

/-- The constructor `DataValue( std::int32_t x )`. -/
def from_int32 (x : Int) : DataValue := int x

/-- The constructor `DataValue( std::uint32_t x )`. -/
def from_uint32 (x : Int) : DataValue := uint x

/-- The constructor `DataValue( std::int64_t x )`. -/
def from_int64 (x : Int) : DataValue := int64 x

/-- The constructor `DataValue( std::uint64_t x )`. -/
def from_uint64 (x : Int) : DataValue := uint64 x

/-- The constructor `DataValue( double x )`. -/
def from_double (x : Double) : DataValue := double x

/-! ### Capacity -/

/-- The member `size()`. -/
def size : DataValue → Nat
  | object m => m.length
  | array a => a.length
  | null => 0
  | _ => 1

/-- The member `empty()`. -/
def empty (self : DataValue) : Bool := self.size == 0

/-! ### Type queries (DataValue.cpp 327-448) -/

def is_null (self : DataValue) : Bool := self.type == .type_null

def is_bool (self : DataValue) : Bool := self.type == .type_bool

/-- The member `is_int()`. -/
def is_int : DataValue → Bool
  | int _ => true
  | uint x => decide (x ≤ wrap_unsigned 32 int32_t_max)
  | int64 x => decide (x ≥ int32_t_min) && decide (x ≤ int32_t_max)
  | uint64 x => decide (x ≤ wrap_unsigned 64 int32_t_max)
  | double d => Double.ge d (Double.ofInt int32_t_min) && Double.le d (Double.ofInt int32_t_max)
  | _ => false

/-- The member `is_uint()`.  In the `type_int` case both comparisons are
between an `int` and a `std::uint32_t`, so the `int` operand is converted to
`std::uint32_t` first. -/
def is_uint : DataValue → Bool
  | int x => decide (wrap_unsigned 32 x ≥ wrap_unsigned 32 uint32_t_min) &&
             decide (wrap_unsigned 32 x ≤ wrap_unsigned 32 uint32_t_max)
  | uint _ => true
  | int64 x => decide (x ≥ wrap_signed 64 uint32_t_min) && decide (x ≤ wrap_signed 64 uint32_t_max)
  | uint64 x => decide (x ≤ wrap_unsigned 64 uint32_t_max)
  | double d => Double.ge d (Double.ofInt uint32_t_min) && Double.le d (Double.ofInt uint32_t_max)
  | _ => false

/-- The member `is_int64()`. -/
def is_int64 : DataValue → Bool
  | int _ => true
  | uint _ => true
  | int64 _ => true
  | uint64 x => decide (x ≤ wrap_unsigned 64 int64_t_max)
  | double d => Double.ge d (Double.ofInt int64_t_min) && Double.le d (Double.ofInt int64_t_max)
  | _ => false

/-- The member `is_uint64()`.  In the `type_int64` case the bound is
`static_cast<std::int64_t>(uint64_t_max)`. -/
def is_uint64 : DataValue → Bool
  | int _ => true
  | uint _ => true
  | int64 x => decide (x ≥ wrap_signed 64 uint64_t_max)
  | uint64 _ => true
  | double d => Double.ge d (Double.ofInt uint64_t_min) && Double.le d (Double.ofInt uint64_t_max)
  | _ => false

/-- The member `is_integral()`. -/
def is_integral (self : DataValue) : Bool :=
  self.is_int || self.is_uint || self.is_int64 || self.is_uint64

/-- The member `is_double()`. -/
def is_double (self : DataValue) : Bool := self.type == .type_double || self.is_integral

/-- The member `is_numeric()`. -/
def is_numeric (self : DataValue) : Bool := self.is_integral || self.is_double

def is_string (self : DataValue) : Bool := self.type == .type_string

def is_object (self : DataValue) : Bool := self.type == .type_object

/-! ### Type access (DataValue.cpp 513-640)

For a String, Array or Object value the numeric accessors fall through to
`return m_data.m_int` (and its siblings), the read of a union member that is
not the active one; the embedding gives 0 there, and the empty string for
`as_string` of a value that is not a String. -/

/-- The member `as_double()`. -/
def as_double : DataValue → Double
  | int x => Double.ofInt x
  | uint x => Double.ofInt x
  | int64 x => Double.ofInt x
  | uint64 x => Double.ofInt x
  | double d => d
  | bool b => if b then Double.ofInt 1 else Double.ofInt 0
  | null => Double.ofInt 0
  | _ => Double.ofInt 0

/-- The member `as_bool()`. -/
def as_bool (self : DataValue) : Bool :=
  match self with
  | bool b => b
  | _ => if self.is_numeric then Double.ne self.as_double (Double.ofInt 0) else false

/-- The member `as_int()`. -/
def as_int : DataValue → Int
  | int x => x
  | uint x => wrap_signed 32 x
  | int64 x => wrap_signed 32 x
  | uint64 x => wrap_signed 32 x
  | double d => Double.toSigned 32 d
  | bool b => if b then 1 else 0
  | null => 0
  | _ => 0

/-- The member `as_uint()`. -/
def as_uint : DataValue → Int
  | int x => wrap_unsigned 32 x
  | uint x => x
  | int64 x => wrap_unsigned 32 x
  | uint64 x => wrap_unsigned 32 x
  | double d => Double.toUnsigned 32 d
  | bool b => if b then 1 else 0
  | null => 0
  | _ => 0

/-- The member `as_int64()`. -/
def as_int64 : DataValue → Int
  | int x => wrap_signed 64 x
  | uint x => wrap_signed 64 x
  | int64 x => x
  | uint64 x => wrap_signed 64 x
  | double d => Double.toSigned 64 d
  | bool b => if b then 1 else 0
  | null => 0
  | _ => 0

/-- The member `as_uint64()`. -/
def as_uint64 : DataValue → Int
  | int x => wrap_unsigned 64 x
  | uint x => wrap_unsigned 64 x
  | int64 x => wrap_unsigned 64 x
  | uint64 x => x
  | double d => Double.toUnsigned 64 d
  | bool b => if b then 1 else 0
  | null => 0
  | _ => 0

/-- The member `as_string()`. -/
def as_string : DataValue → String
  | string s => s
  | _ => ""

/-! ### Convertibility (DataValue.cpp 450-507) -/

/-- The union member `m_data.m_array`, read while it is the active member. -/
def m_array : DataValue → List DataValue
  | array a => a
  | _ => []

/-- The union member `m_data.m_object`, read while it is the active member. -/
def m_object : DataValue → List (String × DataValue)
  | object m => m
  | _ => []

/-- The condition `(m_data.m_ptr)`: the first pointer-sized word of the storage
of `m_data` is not null.  The source reads it for a String, an Array and an
Object only.  For an Array the word is the first word of the `std::vector`, its
begin pointer: null for the vector constructed by `array_values()` as long as
nothing has been pushed, the address of the elements afterwards.  For an
Object without entries it is the first word of the `std::map` constructed by
`object_values()`: in the GNU library the comparator and its padding, which
the value-initialisation of the placement new leaves zero; for an Object with
entries the test `size() == 0` that follows it fails whatever the word is.  For
a String it is the first word of the `std::string`, which in the GNU library is
the pointer to its characters and never null. -/
def m_ptr : DataValue → Bool
  | string _ => true
  | array a => !a.isEmpty
  | object m => !m.isEmpty
  | _ => false

/-- The member `is_convertable_to( x )`. -/
def is_convertable_to (self : DataValue) (x : data_type) : Bool :=
  if x = self.type then true
  else
    match x with
    | .type_null =>
      (self.is_numeric && Double.eq self.as_double (Double.finite 0 0)) ||
      (self.type == .type_bool && (self.as_bool == false)) ||
      (self.type == .type_string && self.m_ptr && self.as_string.data.isEmpty) ||
      (self.type == .type_array && self.m_ptr && (self.m_array.length == 0)) ||
      (self.type == .type_object && self.m_ptr && (self.m_object.length == 0))
    | .type_bool => self.is_numeric || self.type == .type_null
    | .type_int => self.is_int || self.type == .type_bool || self.type == .type_null
    | .type_int64 => self.is_int64 || self.type == .type_bool || self.type == .type_null
    | .type_uint => self.is_uint || self.type == .type_bool || self.type == .type_null
    | .type_uint64 => self.is_uint64 || self.type == .type_bool || self.type == .type_null
    | .type_double => self.is_double || self.type == .type_bool || self.type == .type_null
    | .type_string => self.is_numeric || self.type == .type_bool || self.type == .type_null
    | .type_array => self.type == .type_null
    | .type_object => self.type == .type_null

/-! ### Setters (DataValue.cpp 197-277)

Each setter calls `clear()`, which destroys the payload held so far, and then
installs the new tag and payload; the embedding gives the resulting value.
`set_array` and `set_object` set the tag and then run
`new (&m_data) std::unique_ptr<...>()`, which stores a null pointer in the
first word of `m_data`: no `std::vector` and no `std::map` is constructed, and
the node is left bare. -/

def set_null (_self : DataValue) : DataValue := null

/-- The member `set_bool( bool x = false )`; see `set_bool_default`. -/
def set_bool (_self : DataValue) (x : Bool) : DataValue := bool x

/-- The default argument of `set_bool`. -/
def set_bool_default : Bool := false

def set_int (_self : DataValue) (x : Int) : DataValue := int x

def set_uint (_self : DataValue) (x : Int) : DataValue := uint x

def set_int64 (_self : DataValue) (x : Int) : DataValue := int64 x

def set_uint64 (_self : DataValue) (x : Int) : DataValue := uint64 x

def set_double (_self : DataValue) (x : Double) : DataValue := double x

def set_string (_self : DataValue) (str : String) : DataValue := string str

/-- The member `set_array()` on a node whose payload is constructed: no effect
on an Array; any other node is cleared, tagged `type_array` and gets
`new (&m_data) std::unique_ptr<array_values>()`, a null pointer and no
vector. -/
def set_array (self : DataValue) : node :=
  if self.type = .type_array then .constructed self else .bare_array

/-- The member `set_object()` on a node whose payload is constructed: no effect
on an Object; any other node is cleared, tagged `type_object` and gets
`new (&m_data) std::unique_ptr<object_values>()`, a null pointer and no map. -/
def set_object (self : DataValue) : node :=
  if self.type = .type_object then .constructed self else .bare_object

/-- The constructor `DataValue( data_type type )`.  Its member initialisers set
`m_type` to `type` and `m_data` to `data_union()`, whose `m_null` is the null
pointer; its body calls the setter of `type` with its default argument.  A
scalar setter or `set_string` clears the node (nothing is destroyed, the first
word being null) and stores that argument: `false`, `0`, `0.0`, the empty
string.  For `type_array` and `type_object` the setter finds `m_type` already
equal to the kind and returns at once, so `m_data` stays `data_union()`: the
node is bare. -/
def from_type (t : data_type) : node :=
  match t with
  | .type_null => .constructed null
  | .type_bool => .constructed (bool set_bool_default)
  | .type_int => .constructed (int 0)
  | .type_uint => .constructed (uint 0)
  | .type_int64 => .constructed (int64 0)
  | .type_uint64 => .constructed (uint64 0)
  | .type_double => .constructed (double (Double.finite 0 0))
  | .type_string => .constructed (string "")
  | .type_array => .bare_array
  | .type_object => .bare_object

/-! ### Copying (DataValue.cpp 116-154 and 725-759) -/

/-- The copy constructor `DataValue( const DataValue& x )`.  For an Array or an
Object the source constructs `array_values()` / `object_values()`, a new empty
container. -/
def copy (x : DataValue) : DataValue :=
  match x with
  | null => null
  | bool b => bool b
  | int v => int v
  | uint v => uint v
  | int64 v => int64 v
  | uint64 v => uint64 v
  | double d => double d
  | string s => string s
  | array _ => array []
  | object _ => object []

/-- The copy assignment `operator = ( const DataValue& x )`: `clear()`, then
the same switch as the copy constructor. -/
def assign (_self x : DataValue) : DataValue :=
  match x with
  | null => null
  | bool b => bool b
  | int v => int v
  | uint v => uint v
  | int64 v => int64 v
  | uint64 v => uint64 v
  | double d => double d
  | string s => string s
  | array _ => array []
  | object _ => object []

/-! ### Adding members (DataValue.cpp 281-300) -/

/-- The member `add_member( const DataValue& value )`: `set_array()` when the
node is Null, then `m_data.m_array.push_back` of a copy of `value`.  On a
constructed Array the copy is appended.  A Null receiver is bare after
`set_array()`, and `push_back` then runs on storage in which no vector was
constructed; for any other receiver it runs while another union member is
active.  Both are undefined: `none`. -/
def add_member (self value : DataValue) : Option DataValue :=
  match (if self.is_null then self.set_array else node.constructed self) with
  | .constructed (array a) => some (array (a ++ [copy value]))
  | _ => none

/-- The member `add_member( const std::string& name, const DataValue& value )`:
`set_object()`, then `m_data.m_object[name] = entry` for a copy of `value`.  On
a constructed Object the entry is assigned.  Any other receiver is bare after
`set_object()`, and `operator[]` then runs on storage in which no map was
constructed, which is undefined: `none`. -/
def add_named_member (self : DataValue) (name : String) (value : DataValue) :
    Option DataValue :=
  match self.set_object with
  | .constructed (object m) => some (object (map_assign m name (copy value)))
  | _ => none

/-! ### Member access (DataValue.cpp 646-681) -/

/-- The member `has_member( name )`. -/
def has_member (self : DataValue) (name : String) : Bool :=
  match self with
  | object m => (map_find m name).isSome
  | _ => false

/-! ### Comparison (DataValue.cpp 692-719, DataValue.hpp 513-541) -/

/-- The member `compare( value )`.  The `int` subtraction of the `type_int`
case is reduced to 32 bits; in the `type_int64` case the `std::int64_t`
difference is converted to the `int` that is returned. -/
def compare (self value : DataValue) : Int :=
  let type_delta := self.type.toInt - value.type.toInt
  if type_delta ≠ 0 then type_delta
  else
    match self, value with
    | int a, int b => wrap_signed 32 (a - b)
    | uint a, uint b => if a < b then -1 else if a > b then 1 else 0
    | int64 a, int64 b => wrap_signed 32 (wrap_signed 64 (a - b))
    | uint64 a, uint64 b => if a < b then -1 else if a > b then 1 else 0
    | double a, double b => if Double.lt a b then -1 else if Double.gt a b then 1 else 0
    | bool a, bool b => (if a then 1 else 0) - (if b then 1 else 0)
    | _, _ => 0

/-- The operator `lhs == rhs`. -/
def op_eq (lhs rhs : DataValue) : Bool := decide (lhs.compare rhs = 0)

/-- The operator `lhs < rhs`. -/
def op_lt (lhs rhs : DataValue) : Bool := decide (lhs.compare rhs < 0)

/-- The operator `lhs > rhs`. -/
def op_gt (lhs rhs : DataValue) : Bool := op_lt rhs lhs

/-- The operator `lhs <= rhs`. -/
def op_le (lhs rhs : DataValue) : Bool := !(op_lt rhs lhs)

/-- The operator `lhs >= rhs`. -/
def op_ge (lhs rhs : DataValue) : Bool := !(op_lt lhs rhs)

/-- The operator `lhs != rhs`. -/
def op_ne (lhs rhs : DataValue) : Bool := !(op_eq rhs lhs)

/-! ### Iteration (DataValue.hpp 543-565)

The callback of the source mutates the variables it captures; here it is a
function on the state `σ` it captures, threaded through the loop.  When the tag
is not the iterated kind the source only has the comment `// throw` and goes on
to iterate the inactive union member, which is undefined: `none`. -/

/-- The member `for_each_array( function )`. -/
def for_each_array {σ : Type} (self : DataValue) (function : σ → DataValue → σ) (init : σ) :
    Option σ :=
  match self with
  | array a => some (a.foldl function init)
  | _ => none

/-- The member `for_each_object( function )`. -/
def for_each_object {σ : Type} (self : DataValue) (function : σ → String → DataValue → σ)
    (init : σ) : Option σ :=
  match self with
  | object m => some (m.foldl (fun s x => function s x.1 x.2) init)
  | _ => none

end DataValue

/-! ## Bare nodes

The members of `DataValue` on a `node`.  On `constructed value` each is the
member of `value`.  On a bare node the members that read `m_type` and the first
word of `m_data` only have the result given here; `size()` and the iterations
read `m_data.m_array` / `m_data.m_object`, which was never constructed, and are
undefined. -/

namespace node

/-- The tag `m_type` (`DataValue::type`). -/
def type : node → data_type
  | constructed value => value.type
  | bare_array => .type_array
  | bare_object => .type_object

/-- The member `size()`, `m_data.m_array.size()` / `m_data.m_object.size()` for
an Array / Object: on a bare node it reads a container that does not exist. -/
def size : node → Option Nat
  | constructed value => some value.size
  | bare_array => none
  | bare_object => none

/-- The member `is_convertable_to( x )`.  On a bare node of kind `k` the result
is true for `x == k`.  Otherwise every clause of the switch is false:
`is_numeric()`, `is_int()`, .., `is_double()` are false for an Array or Object
tag, the tag is none of `type_null`, `type_bool`, `type_string`, and in the
`type_null` case the clause of kind `k` is `m_type == k && (m_data.m_ptr) &&
..`, which stops at the null first word before it reads the container. -/
def is_convertable_to (self : node) (x : data_type) : Bool :=
  match self with
  | constructed value => value.is_convertable_to x
  | bare_array => if x = .type_array then true else false
  | bare_object => if x = .type_object then true else false

/-- The member `set_array()`: no effect when `m_type` is `type_array`, also on
a bare Array; a bare Object is cleared (`clear()` destroys nothing, the first
word being null) and becomes a bare Array. -/
def set_array : node → node
  | constructed value => value.set_array
  | bare_array => bare_array
  | bare_object => bare_array

/-- The member `set_object()`: no effect when `m_type` is `type_object`, also on
a bare Object; a bare Array becomes a bare Object. -/
def set_object : node → node
  | constructed value => value.set_object
  | bare_array => bare_object
  | bare_object => bare_object

/-- The copy constructor `DataValue( const DataValue& x )` and the copy
assignment `operator =` for a source that may be bare: for the tags
`type_array` and `type_object` they read `x.m_type` only and construct
`array_values()` / `object_values()`, an empty container. -/
def copy : node → DataValue
  | constructed value => value.copy
  | bare_array => .array []
  | bare_object => .object []

/-- The member `add_member( const DataValue& value )`: `set_array()` is called
for a Null node only, so a bare node stays bare and `push_back` runs on storage
in which no vector was constructed. -/
def add_member (self : node) (value : DataValue) : Option DataValue :=
  match self with
  | constructed receiver => receiver.add_member value
  | _ => none

/-- The member `add_member( const std::string& name, const DataValue& value )`:
after `set_object()` a bare node is a bare Object, and `operator[]` runs on
storage in which no map was constructed. -/
def add_named_member (self : node) (name : String) (value : DataValue) : Option DataValue :=
  match self.set_object with
  | constructed (.object m) => some (.object (map_assign m name value.copy))
  | _ => none

/-- The member `for_each_array( function )`. -/
def for_each_array {σ : Type} (self : node) (function : σ → DataValue → σ) (init : σ) :
    Option σ :=
  match self with
  | constructed value => value.for_each_array function init
  | _ => none

/-- The member `for_each_object( function )`. -/
def for_each_object {σ : Type} (self : node) (function : σ → String → DataValue → σ)
    (init : σ) : Option σ :=
  match self with
  | constructed value => value.for_each_object function init
  | _ => none

end node

/-! ## DataTranslator -/

/-- The host structure `T` (`value_type`) as seen through member pointers: its
`bool`, `int`, `float` and `std::string` fields, each family indexed by the
member pointer that designates the field. -/
structure value_type where
  bool_fields : Nat → Bool
  int_fields : Nat → Int
  float_fields : Nat → Double
  string_fields : Nat → String

/-- The data members of `DataTranslator<T>`.  A scalar member map sends a name
to a member pointer, an array member map to a pair of a member pointer and a
size.  The counter `m_members` is an `int` that grows by one per registration;
it is not reduced to 32 bits. -/
structure DataTranslator where
  m_members : Int
  m_bool_members : List (String × Nat)
  m_int_members : List (String × Nat)
  m_float_members : List (String × Nat)
  m_string_members : List (String × Nat)
  m_bool_array_members : List (String × (Nat × Int))
  m_int_array_members : List (String × (Nat × Int))
  m_float_array_members : List (String × (Nat × Int))
  m_string_array_members : List (String × (Nat × Int))
  m_bool_vector_members : List (String × Nat)
  m_int_vector_members : List (String × Nat)
  m_float_vector_members : List (String × Nat)
  m_string_vector_members : List (String × Nat)

namespace DataTranslator

/-- The constructor `DataTranslator()`. -/
def init : DataTranslator :=
  { m_members := 0
    m_bool_members := []
    m_int_members := []
    m_float_members := []
    m_string_members := []
    m_bool_array_members := []
    m_int_array_members := []
    m_float_array_members := []
    m_string_array_members := []
    m_bool_vector_members := []
    m_int_vector_members := []
    m_float_vector_members := []
    m_string_vector_members := [] }

/-- The member `members()`. -/
def members (self : DataTranslator) : Int := self.m_members

/-- The overload `add_member( str, bool_member member )`. -/
def add_bool_member (self : DataTranslator) (str : String) (member : Nat) : DataTranslator :=
  { self with
    m_members := self.m_members + 1
    m_bool_members := map_assign self.m_bool_members str member }

/-- The overload `add_member( str, int_member member )`. -/
def add_int_member (self : DataTranslator) (str : String) (member : Nat) : DataTranslator :=
  { self with
    m_members := self.m_members + 1
    m_int_members := map_assign self.m_int_members str member }

/-- The overload `add_member( str, float_member member )`. -/
def add_float_member (self : DataTranslator) (str : String) (member : Nat) : DataTranslator :=
  { self with
    m_members := self.m_members + 1
    m_float_members := map_assign self.m_float_members str member }

/-- The overload `add_member( str, string_member member )`. -/
def add_string_member (self : DataTranslator) (str : String) (member : Nat) : DataTranslator :=
  { self with
    m_members := self.m_members + 1
    m_string_members := map_assign self.m_string_members str member }

/-- The body of the callback that `translate` passes to `for_each_object`, on
the captured state `(object, entries_matched)`.  The counter is an `int` that
grows by one per matched entry; it is not reduced to 32 bits, an object of
`2 ^ 31` matched entries being out of reach. -/
def translate_entry (self : DataTranslator) (state : value_type × Int) (key : String)
    (node : DataValue) : value_type × Int :=
  if node.is_integral then
    match map_find self.m_int_members key with
    | some im_ptr =>
      ({ state.1 with int_fields := Function.update state.1.int_fields im_ptr node.as_int },
        state.2 + 1)
    | none => state
  else if node.is_bool then
    match map_find self.m_bool_members key with
    | some bm_ptr =>
      ({ state.1 with bool_fields := Function.update state.1.bool_fields bm_ptr node.as_bool },
        state.2 + 1)
    | none => state
  else if node.is_double then
    match map_find self.m_float_members key with
    | some fm_ptr =>
      ({ state.1 with
          float_fields := Function.update state.1.float_fields fm_ptr node.as_double.toFloat },
        state.2 + 1)
    | none => state
  else if node.is_string then
    match map_find self.m_string_members key with
    | some sm_ptr =>
      ({ state.1 with
          string_fields := Function.update state.1.string_fields sm_ptr node.as_string },
        state.2 + 1)
    | none => state
  else state

/-- The member `translate( object, data )`: the structure after the call and
the value returned.  The iteration is only reached for an Object, where
`for_each_object` is defined. -/
def translate (self : DataTranslator) (object : value_type) (data : DataValue) :
    value_type × Int :=
  if !data.is_object then (object, 0)
  else
    match data.for_each_object (translate_entry self) (object, 0) with
    | some state => state
    | none => (object, 0)

/-- The call `memcpy( &objects[dst], &objects[src], n * sizeof(value_type) )` on
an array of structures: `n` structures are read from index `src` on, as they
were before the call, and stored from index `dst` on.  (C++ leaves the call
undefined when the two ranges overlap.) -/
def memcpy (objects : Nat → value_type) (dst src n : Nat) : Nat → value_type :=
  fun i => if dst ≤ i ∧ i < dst + n then objects (src + (i - dst)) else objects i

/-- The member `translate_uniform( objects, size, data )`: the array after the
call and the value returned. -/
def translate_uniform (self : DataTranslator) (objects : Nat → value_type) (size : Int)
    (data : DataValue) : (Nat → value_type) × Int :=
  let result := self.translate (objects 0) data
  let objects1 := Function.update objects 0 result.1
  if size > 1 then (memcpy objects1 1 0 (size - 1).toNat, result.2)
  else (objects1, result.2)

/-! ### Vocabulary for statements about `translate` -/

/-- The `int` member that the callback of `translate` writes for the entry
`(key, node)`, if it writes one: the first branch of the callback. -/
def int_target (self : DataTranslator) (key : String) (node : DataValue) : Option Nat :=
  if node.is_integral then map_find self.m_int_members key else none

/-- The `bool` member that the callback of `translate` writes for the entry
`(key, node)`, if it writes one: the second branch of the callback. -/
def bool_target (self : DataTranslator) (key : String) (node : DataValue) : Option Nat :=
  if !node.is_integral && node.is_bool then map_find self.m_bool_members key else none

/-- The `float` member that the callback of `translate` writes for the entry
`(key, node)`, if it writes one: the third branch of the callback. -/
def float_target (self : DataTranslator) (key : String) (node : DataValue) : Option Nat :=
  if !node.is_integral && !node.is_bool && node.is_double then
    map_find self.m_float_members key
  else none

/-- The `std::string` member that the callback of `translate` writes for the
entry `(key, node)`, if it writes one: the fourth branch of the callback. -/
def string_target (self : DataTranslator) (key : String) (node : DataValue) : Option Nat :=
  if !node.is_integral && !node.is_bool && !node.is_double && node.is_string then
    map_find self.m_string_members key
  else none

/-- The callback of `translate` counts the entry `(key, node)`. -/
def entry_matched (self : DataTranslator) (key : String) (node : DataValue) : Bool :=
  (self.int_target key node).isSome || (self.bool_target key node).isSome ||
  (self.float_target key node).isSome || (self.string_target key node).isSome

end DataTranslator

/-- One of the four integer kinds Int32, UInt32, Int64, UInt64. -/
def data_type.is_integer (t : data_type) : Bool :=
  t = .type_int || t = .type_uint || t = .type_int64 || t = .type_uint64

/-- One of the numeric kinds: an integer kind or Double. -/
def data_type.is_numeric_kind (t : data_type) : Bool :=
  t.is_integer || t = .type_double

namespace DataValue

/-- The number stored by a value of an integer kind (0 for any other kind). -/
def stored_integer : DataValue → Int
  | int x => x
  | uint x => x
  | int64 x => x
  | uint64 x => x
  | _ => 0

/-- The reference table of convertibility to a target kind other than Null,
in the words of the specification: the own kind; to Bool from a numeric kind
or Null; to an integer kind when the range predicate of that kind holds, or
from Bool or Null; to Double when `is_double()` holds, or from Bool or Null; to
String from a numeric kind, Bool or Null; to Array or Object from Null. -/
def convertable_table (v : DataValue) (t : data_type) : Bool :=
  if t = v.type then true
  else
    match t with
    | .type_bool => v.type.is_numeric_kind || v.type = .type_null
    | .type_int => v.is_int || v.type = .type_bool || v.type = .type_null
    | .type_uint => v.is_uint || v.type = .type_bool || v.type = .type_null
    | .type_int64 => v.is_int64 || v.type = .type_bool || v.type = .type_null
    | .type_uint64 => v.is_uint64 || v.type = .type_bool || v.type = .type_null
    | .type_double => v.is_double || v.type = .type_bool || v.type = .type_null
    | .type_string => v.type.is_numeric_kind || v.type = .type_bool || v.type = .type_null
    | .type_array => v.type = .type_null
    | .type_object => v.type = .type_null
    | .type_null => false

/-- The node obtained from the node `start` by the calls
`add_member( name, value )` for the pairs of `calls`, in order; `none` as soon
as one of the calls is undefined. -/
def add_members_to (start : DataValue) (calls : List (String × DataValue)) :
    Option DataValue :=
  calls.foldl (fun node c => node.bind (fun x => x.add_named_member c.1 c.2)) (some start)

/-- The node obtained from a fresh `DataValue()`, which is
`DataValue( type_null )`, by the calls `add_member( name, value )` for the
pairs of `calls`, in order. -/
def add_members (calls : List (String × DataValue)) : Option DataValue :=
  match from_type .type_null with
  | .constructed fresh => add_members_to fresh calls
  | _ => none

/-- The keys passed to the callback of `for_each_object`, in the order of the
invocations. -/
def visited_keys (self : DataValue) : Option (List String) :=
  self.for_each_object (fun acc key _ => acc ++ [key]) []

end DataValue

/-! ## Element access (DataValue.cpp 653-681, DataValue.hpp 489-507) -/

/-- How a call of a member that can fail ends: it returns a result, or an
exception leaves it (`std::out_of_range`, thrown by `std::vector::at` and
`std::map::at`), or its behaviour is undefined.  The first two carry the node
as it is after the call. -/
inductive outcome (α : Type) where
  | returned (result : α) (node : DataValue)
  | thrown (node : DataValue)
  | undefined

namespace DataValue

/-- The member `at( size_t i )`, `*m_data.m_array.at(i)`.  Reading
`m_data.m_array` while another union member is active is undefined. -/
def at_index (self : DataValue) (i : Nat) : outcome DataValue :=
  match self with
  | array a =>
    match a[i]? with
    | some child => .returned child self
    | none => .thrown self
  | _ => .undefined

/-- The member `at( const std::string& name )`, `*m_data.m_object.at(name)`.
Reading `m_data.m_object` while another union member is active is undefined. -/
def at_name (self : DataValue) (name : String) : outcome DataValue :=
  match self with
  | object m =>
    match map_find m name with
    | some child => .returned child self
    | none => .thrown self
  | _ => .undefined

/-- The node obtained from the node `start` by the calls `add_member( value )`
for the values of `values`, in order; `none` as soon as one of the calls is
undefined. -/
def add_array_members_to (start : DataValue) (values : List DataValue) : Option DataValue :=
  values.foldl (fun node v => node.bind (fun x => x.add_member v)) (some start)

/-- The node obtained from a fresh `DataValue()`, which is
`DataValue( type_null )`, by the calls `add_member( value )` for the values of
`values`, in order. -/
def add_array_members (values : List DataValue) : Option DataValue :=
  match from_type .type_null with
  | .constructed fresh => add_array_members_to fresh values
  | _ => none

/-- The children passed to the callback of `for_each_array`, in the order of
the invocations. -/
def visited_children (self : DataValue) : Option (List DataValue) :=
  self.for_each_array (fun acc child => acc ++ [child]) []

end DataValue

/-! ## Registrations of a translator -/

namespace DataTranslator

/-- The sum of the numbers of entries held in the name-to-accessor maps. -/
def entry_count (self : DataTranslator) : Nat :=
  self.m_bool_members.length + self.m_int_members.length + self.m_float_members.length +
  self.m_string_members.length + self.m_bool_array_members.length +
  self.m_int_array_members.length + self.m_float_array_members.length +
  self.m_string_array_members.length + self.m_bool_vector_members.length +
  self.m_int_vector_members.length + self.m_float_vector_members.length +
  self.m_string_vector_members.length

end DataTranslator

namespace DataTranslator

end DataTranslator

/-! ## Example data -/

/-- A host structure all of whose fields are zero-valued. -/
def zero_instance : value_type :=
  { bool_fields := fun _ => false
    int_fields := fun _ => 0
    float_fields := fun _ => Double.finite 0 0
    string_fields := fun _ => "" }

/-- The translator with the bindings `count` (the `int` field 0) and `label`
(the `std::string` field 0). -/
def count_label_translator : DataTranslator :=
  (DataTranslator.init.add_int_member "count" 0).add_string_member "label" 0

/-- An empty Object as the interface can make one: the copy of
`DataValue( type_object )`. -/
def empty_object : DataValue := (DataValue.from_type .type_object).copy

/-- An empty Array as the interface can make one: the copy of
`DataValue( type_array )`. -/
def empty_array : DataValue := (DataValue.from_type .type_array).copy

/-- An array of structures that differ in their `int` field 0: the structure at
index `i` holds `i` there. -/
def numbered_instances : Nat → value_type :=
  fun i => { zero_instance with int_fields := fun _ => (i : Int) }

end serial

namespace serial

open DataValue

/-! ## Scalar construction and access -/

/-- C1: a value constructed from a scalar literal has the kind of the literal,
and the matching accessor returns the literal: `DataValue(b).as_bool() = b`,
`DataValue(i).as_int() = i`, `DataValue(u).as_uint() = u`,
`DataValue(l).as_int64() = l`, `DataValue(m).as_uint64() = m` and
`DataValue(d).as_double() = d`. -/
theorem scalar_round_trip (b : Bool) (i u l m : Int) (d : Double) :
    ((from_bool b).as_bool = b ∧ (from_bool b).type = .type_bool) ∧
    ((from_int32 i).as_int = i ∧ (from_int32 i).type = .type_int) ∧
    ((from_uint32 u).as_uint = u ∧ (from_uint32 u).type = .type_uint) ∧
    ((from_int64 l).as_int64 = l ∧ (from_int64 l).type = .type_int64) ∧
    ((from_uint64 m).as_uint64 = m ∧ (from_uint64 m).type = .type_uint64) ∧
    ((from_double d).as_double = d ∧ (from_double d).type = .type_double) :=
  ⟨⟨rfl, rfl⟩, ⟨rfl, rfl⟩, ⟨rfl, rfl⟩, ⟨rfl, rfl⟩, ⟨rfl, rfl⟩, ⟨rfl, rfl⟩⟩

/-! ## Comparison -/

theorem Double.lt_irrefl (a : Double) : Double.lt a a = false := by
  cases a with
  | nan => rfl
  | inf s => cases s <;> rfl
  | finite m e => simp [Double.lt]

theorem data_type.toInt_injective (s t : data_type) (h : s.toInt = t.toInt) : s = t := by
  cases s <;> cases t <;> first | rfl | (simp [data_type.toInt] at h)

theorem compare_of_type_ne (a b : DataValue) (h : a.type ≠ b.type) :
    a.compare b = a.type.toInt - b.type.toInt := by
  have hne : a.type.toInt - b.type.toInt ≠ 0 := by
    intro h0
    exact h (data_type.toInt_injective _ _ (by omega))
  simp [DataValue.compare, hne]

/-- On UInt32, UInt64 and Bool values `compare` follows the order of the stored
values. -/
theorem compare_unsigned_order (a b : Int) (p q : Bool) :
    ((uint a).compare (uint b) < 0 ↔ a < b) ∧ ((uint a).compare (uint b) = 0 ↔ a = b) ∧
    ((uint64 a).compare (uint64 b) < 0 ↔ a < b) ∧ ((uint64 a).compare (uint64 b) = 0 ↔ a = b) ∧
    ((bool p).compare (bool q) < 0 ↔ (p = false ∧ q = true)) ∧
    ((bool p).compare (bool q) = 0 ↔ p = q) := by
  have hu : ∀ x y : Int, (if x < y then (-1 : Int) else if x > y then 1 else 0) < 0 ↔ x < y := by
    intro x y
    rcases lt_trichotomy x y with h | h | h
    · simp [h]
    · simp [h]
    · simp [h, not_lt.mpr h.le]
  have he : ∀ x y : Int, (if x < y then (-1 : Int) else if x > y then 1 else 0) = 0 ↔ x = y := by
    intro x y
    rcases lt_trichotomy x y with h | h | h
    · simp [h, h.ne]
    · simp [h]
    · simp [h, h.ne.symm, not_lt.mpr h.le]
  refine ⟨?_, ?_, ?_, ?_, ?_, ?_⟩
  · simpa [DataValue.compare, DataValue.type] using hu a b
  · simpa [DataValue.compare, DataValue.type] using he a b
  · simpa [DataValue.compare, DataValue.type] using hu a b
  · simpa [DataValue.compare, DataValue.type] using he a b
  · cases p <;> cases q <;> simp [DataValue.compare, DataValue.type]
  · cases p <;> cases q <;> simp [DataValue.compare, DataValue.type]

/-- C8 (failing input): the Int64 values 4294967296 and 0 are both in range
and differ, yet `compare` returns 0 and `==` holds: the 64-bit difference
`2 ^ 32` is converted to the `int` result.  For the Int32 values -2147483648
and 1 the 32-bit difference is positive although the first is the smaller. -/
theorem compare_int64_narrowed :
    (from_int64 4294967296).in_range = true ∧ (from_int64 0).in_range = true ∧
    (from_int64 4294967296).compare (from_int64 0) = 0 ∧
    op_eq (from_int64 4294967296) (from_int64 0) = true ∧
    (from_int32 (-2147483648)).in_range = true ∧ (from_int32 1).in_range = true ∧
    (from_int32 (-2147483648)).compare (from_int32 1) = 2147483647 := by
  refine ⟨by decide, by decide, by decide, by decide, by decide, by decide, by decide⟩

/-- C9: `compare` is reflexive, `x.compare(x) = 0` for every value, so `x == x`,
`x <= x` and `x >= x` hold and `x < x`, `x > x` and `x != x` do not. -/
theorem compare_self (x : DataValue) :
    x.compare x = 0 ∧ op_eq x x = true ∧ op_le x x = true ∧ op_ge x x = true ∧
    op_lt x x = false ∧ op_gt x x = false ∧ op_ne x x = false := by
  have h : x.compare x = 0 := by
    cases x <;> simp [DataValue.compare, data_type.toInt, DataValue.type, wrap_signed, Double.lt_irrefl, Double.gt]
  simp [op_eq, op_le, op_ge, op_lt, op_gt, op_ne, h]

/-- C10: for two values of differing kinds `compare` returns the difference of
the positions of the kinds in the enumeration, whatever the payloads; so it
has the sign of that difference, `compare(a,b)` and `compare(b,a)` are non-zero
and opposite, exactly one of `a < b` and `b < a` holds, and `a == b` is false. -/
theorem compare_cross_kind (a b : DataValue) (h : a.type ≠ b.type) :
    a.compare b = a.type.toInt - b.type.toInt ∧
    Int.sign (a.compare b) = Int.sign (a.type.toInt - b.type.toInt) ∧
    a.compare b ≠ 0 ∧ b.compare a = -(a.compare b) ∧
    (op_lt a b = true ↔ a.type.toInt < b.type.toInt) ∧
    (op_lt a b = true ↔ op_lt b a = false) ∧
    op_eq a b = false := by
  have hab := compare_of_type_ne a b h
  have hba := compare_of_type_ne b a (Ne.symm h)
  have hne : a.type.toInt ≠ b.type.toInt := fun h0 => h (data_type.toInt_injective _ _ h0)
  refine ⟨hab, by rw [hab], by rw [hab]; omega, by rw [hab, hba]; omega, ?_, ?_, ?_⟩
  · simp only [op_lt, hab, decide_eq_true_eq]; omega
  · simp only [op_lt, hab, hba, decide_eq_true_eq, decide_eq_false_iff_not]; omega
  · simp only [op_eq, hab, decide_eq_false_iff_not]; omega

/-- Witness of C10 on `DataValue(true)` and `DataValue(std::int32_t 0)`. -/
theorem compare_cross_kind_witness :
    (from_bool true).type ≠ (from_int32 0).type ∧
    (from_bool true).compare (from_int32 0) = -1 ∧
    op_lt (from_bool true) (from_int32 0) = true ∧
    op_lt (from_int32 0) (from_bool true) = false :=
  have h := compare_cross_kind (from_bool true) (from_int32 0) (by decide)
  ⟨by decide, h.1, h.2.2.2.2.1.mpr (by decide), h.2.2.2.2.2.1.mp (h.2.2.2.2.1.mpr (by decide))⟩

/-! ## Copying -/

/-- C7 (failing input): the Array holding the single element `DataValue(1)`,
as built by `add_member` on an empty Array, has size 1; its copy by the copy
constructor and by copy assignment is an Array of size 0, and `add_member`
stores it as an empty Array.  An Object of one entry, as built by `add_member`
on an empty Object, is likewise copied as an Object of size 0. -/
theorem copy_drops_children :
    add_member empty_array (from_int32 1) = some (array [int 1]) ∧
    (array [int 1]).size = 1 ∧
    (copy (array [int 1])).type = .type_array ∧ (copy (array [int 1])).size = 0 ∧
    (assign null (array [int 1])).size = 0 ∧
    add_member empty_array (array [int 1]) = some (array [array []]) ∧
    add_named_member empty_object "a" (from_int32 1) = some (object [("a", int 1)]) ∧
    (object [("a", int 1)]).size = 1 ∧
    (copy (object [("a", int 1)])).size = 0 := by
  refine ⟨rfl, rfl, rfl, rfl, rfl, rfl, rfl, rfl, rfl⟩

end serial

namespace serial

open DataValue

/-! ## Translation -/

namespace DataTranslator

/-- The callback of `translate` threaded over the entries of an object. -/
theorem translate_object (tr : DataTranslator) (obj : value_type)
    (m : List (String × DataValue)) :
    tr.translate obj (object m) =
      m.foldl (fun s x => tr.translate_entry s x.1 x.2) (obj, 0) := by
  simp [translate, is_object, DataValue.type, for_each_object]

theorem update_apply_some {α : Type} (g : Nat → α) (a f : Nat) (v : α) :
    Function.update g a v f = if some a = some f then v else g f := by
  by_cases h : a = f
  · subst h; simp
  · simp [Function.update, h, Ne.symm h]

theorem translate_entry_int_fields (tr : DataTranslator) (s : value_type × Int) (k : String)
    (n : DataValue) (f : Nat) :
    (tr.translate_entry s k n).1.int_fields f =
      if tr.int_target k n = some f then n.as_int else s.1.int_fields f := by
  unfold translate_entry int_target
  cases n.is_integral <;> cases n.is_bool <;> cases n.is_double <;> cases n.is_string <;>
    cases map_find tr.m_int_members k <;> cases map_find tr.m_bool_members k <;>
    cases map_find tr.m_float_members k <;> cases map_find tr.m_string_members k <;>
    simp [update_apply_some]

theorem translate_entry_bool_fields (tr : DataTranslator) (s : value_type × Int) (k : String)
    (n : DataValue) (f : Nat) :
    (tr.translate_entry s k n).1.bool_fields f =
      if tr.bool_target k n = some f then n.as_bool else s.1.bool_fields f := by
  unfold translate_entry bool_target
  cases n.is_integral <;> cases n.is_bool <;> cases n.is_double <;> cases n.is_string <;>
    cases map_find tr.m_int_members k <;> cases map_find tr.m_bool_members k <;>
    cases map_find tr.m_float_members k <;> cases map_find tr.m_string_members k <;>
    simp [update_apply_some]

theorem translate_entry_float_fields (tr : DataTranslator) (s : value_type × Int) (k : String)
    (n : DataValue) (f : Nat) :
    (tr.translate_entry s k n).1.float_fields f =
      if tr.float_target k n = some f then n.as_double.toFloat else s.1.float_fields f := by
  unfold translate_entry float_target
  cases n.is_integral <;> cases n.is_bool <;> cases n.is_double <;> cases n.is_string <;>
    cases map_find tr.m_int_members k <;> cases map_find tr.m_bool_members k <;>
    cases map_find tr.m_float_members k <;> cases map_find tr.m_string_members k <;>
    simp [update_apply_some]

theorem translate_entry_string_fields (tr : DataTranslator) (s : value_type × Int) (k : String)
    (n : DataValue) (f : Nat) :
    (tr.translate_entry s k n).1.string_fields f =
      if tr.string_target k n = some f then n.as_string else s.1.string_fields f := by
  unfold translate_entry string_target
  cases n.is_integral <;> cases n.is_bool <;> cases n.is_double <;> cases n.is_string <;>
    cases map_find tr.m_int_members k <;> cases map_find tr.m_bool_members k <;>
    cases map_find tr.m_float_members k <;> cases map_find tr.m_string_members k <;>
    simp [update_apply_some]

end DataTranslator

end serial

namespace serial

open DataValue

theorem chars_less_irrefl (l : List Char) : chars_less l l = false := by
  induction l with
  | nil => rfl
  | cons a l ih => simp [chars_less, ih]

theorem key_less_irrefl (k : String) : key_less k k = false :=
  chars_less_irrefl k.data

namespace DataTranslator

/-- A field that no entry targets keeps its value through the loop. -/
theorem fold_frame {α : Type} (tr : DataTranslator) (proj : value_type → Nat → α)
    (tgt : String → DataValue → Option Nat) (val : DataValue → α)
    (hstep : ∀ s k n f, proj (tr.translate_entry s k n).1 f =
      if tgt k n = some f then val n else proj s.1 f)
    (f : Nat) (m : List (String × DataValue)) :
    ∀ s : value_type × Int, (∀ x ∈ m, tgt x.1 x.2 ≠ some f) →
      proj (m.foldl (fun s x => tr.translate_entry s x.1 x.2) s).1 f = proj s.1 f := by
  induction m with
  | nil => intro s _; rfl
  | cons y rest ih =>
    intro s hno
    rw [List.foldl_cons, ih _ (fun x hx => hno x (List.mem_cons_of_mem _ hx)), hstep,
      if_neg (hno y (List.mem_cons_self _ _))]

theorem is_integral_of_integer (n : DataValue) (h : n.type.is_integer = true) :
    n.is_integral = true := by
  cases n <;>
    simp [DataValue.type, data_type.is_integer] at h <;>
    simp [is_integral, is_int, is_uint, is_int64, is_uint64]

theorem queries_of_bool (n : DataValue) (h : n.type = .type_bool) :
    n.is_integral = false ∧ n.is_bool = true := by
  cases n <;> simp [DataValue.type] at h
  simp [is_integral, is_int, is_uint, is_int64, is_uint64, is_bool, DataValue.type]

theorem queries_of_string (n : DataValue) (h : n.type = .type_string) :
    n.is_integral = false ∧ n.is_bool = false ∧ n.is_double = false ∧ n.is_string = true := by
  cases n <;> simp [DataValue.type] at h
  simp [is_integral, is_int, is_uint, is_int64, is_uint64, is_bool, is_double, is_string,
    DataValue.type]

end DataTranslator

end serial

namespace serial

open DataValue

namespace DataTranslator

/-- C3: for a node whose kind is not Object, `translate` returns 0 and leaves
the structure as it was. -/
theorem translate_non_object (tr : DataTranslator) (obj : value_type) (data : DataValue)
    (h : data.type ≠ .type_object) : tr.translate obj data = (obj, 0) := by
  have h1 : data.is_object = false := by simp [is_object, h]
  simp [translate, h1]

/-- Witness of C3 on an Array node. -/
theorem translate_non_object_witness :
    empty_array.type ≠ .type_object ∧
    count_label_translator.translate zero_instance empty_array = (zero_instance, 0) :=
  ⟨by decide, translate_non_object count_label_translator zero_instance empty_array
    (by decide)⟩

/-- An entry that the callback does not count leaves the state as it was. -/
theorem translate_entry_unmatched (tr : DataTranslator) (s : value_type × Int) (k : String)
    (n : DataValue) (h : tr.entry_matched k n = false) : tr.translate_entry s k n = s := by
  revert h
  unfold translate_entry entry_matched int_target bool_target float_target string_target
  cases n.is_integral <;> cases n.is_bool <;> cases n.is_double <;> cases n.is_string <;>
    cases map_find tr.m_int_members k <;> cases map_find tr.m_bool_members k <;>
    cases map_find tr.m_float_members k <;> cases map_find tr.m_string_members k <;>
    simp

/-- A Null, Array or Object child is never counted. -/
theorem entry_matched_container (tr : DataTranslator) (k : String) (n : DataValue)
    (h : n.type = .type_null ∨ n.type = .type_array ∨ n.type = .type_object) :
    tr.entry_matched k n = false := by
  cases n <;> simp [DataValue.type] at h <;>
    simp [entry_matched, int_target, bool_target, float_target, string_target, is_integral,
      is_int, is_uint, is_int64, is_uint64, is_bool, is_double, is_string, DataValue.type]

/-- Frame of `translate` on an Object: a field that is the target of no entry
keeps its value. -/
theorem translate_frame (tr : DataTranslator) (obj : value_type)
    (m : List (String × DataValue)) :
    (∀ f, (∀ x ∈ m, tr.int_target x.1 x.2 ≠ some f) →
      (tr.translate obj (object m)).1.int_fields f = obj.int_fields f) ∧
    (∀ f, (∀ x ∈ m, tr.bool_target x.1 x.2 ≠ some f) →
      (tr.translate obj (object m)).1.bool_fields f = obj.bool_fields f) ∧
    (∀ f, (∀ x ∈ m, tr.float_target x.1 x.2 ≠ some f) →
      (tr.translate obj (object m)).1.float_fields f = obj.float_fields f) ∧
    (∀ f, (∀ x ∈ m, tr.string_target x.1 x.2 ≠ some f) →
      (tr.translate obj (object m)).1.string_fields f = obj.string_fields f) := by
  rw [translate_object]
  exact ⟨fun f h => fold_frame tr (fun v => v.int_fields) tr.int_target DataValue.as_int
      (translate_entry_int_fields tr) f m _ h,
    fun f h => fold_frame tr (fun v => v.bool_fields) tr.bool_target DataValue.as_bool
      (translate_entry_bool_fields tr) f m _ h,
    fun f h => fold_frame tr (fun v => v.float_fields) tr.float_target
      (fun n => n.as_double.toFloat) (translate_entry_float_fields tr) f m _ h,
    fun f h => fold_frame tr (fun v => v.string_fields) tr.string_target DataValue.as_string
      (translate_entry_string_fields tr) f m _ h⟩

/-- C4 (failing input): with the single binding `x` (the `int` field 0) and the
Object `{x: 5.0}`, whose child is of kind Double (the node that `add_member`
makes of an empty Object), `translate` returns 1 and writes 5 to the `int`
field, although the key has no float binding. -/
theorem translate_double_child_int_binding :
    empty_object.add_named_member "x" (from_double (Double.finite 5 0)) =
      some (object [("x", from_double (Double.finite 5 0))]) ∧
    (init.add_int_member "x" 0).m_float_members = [] ∧
    (from_double (Double.finite 5 0)).type = .type_double ∧
    (from_double (Double.finite 5 0)).is_integral = true ∧
    ((init.add_int_member "x" 0).translate zero_instance
      (object [("x", from_double (Double.finite 5 0))])).2 = 1 ∧
    ((init.add_int_member "x" 0).translate zero_instance
      (object [("x", from_double (Double.finite 5 0))])).1.int_fields 0 = 5 ∧
    zero_instance.int_fields 0 = 0 := by
  refine ⟨rfl, rfl, rfl, by decide, by decide, by decide, by decide⟩

/-- C5 (failing input): with an int binding and a float binding both
registered under `x` and the Object `{x: 2.5}`, whose child is of kind Double
(the node that `add_member` makes of an empty Object), `translate` returns 1,
writes `(int) 2.5 = 2` to the `int` field and leaves the `float` field at 0
instead of `(float) 2.5`. -/
theorem translate_double_child_both_bindings :
    empty_object.add_named_member "x" (from_double (Double.finite 5 (-1))) =
      some (object [("x", from_double (Double.finite 5 (-1)))]) ∧
    map_find ((init.add_int_member "x" 0).add_float_member "x" 0).m_float_members "x" = some 0 ∧
    (from_double (Double.finite 5 (-1))).type = .type_double ∧
    (from_double (Double.finite 5 (-1))).as_double.toFloat = Double.finite 5 (-1) ∧
    (((init.add_int_member "x" 0).add_float_member "x" 0).translate zero_instance
      (object [("x", from_double (Double.finite 5 (-1)))])).2 = 1 ∧
    (((init.add_int_member "x" 0).add_float_member "x" 0).translate zero_instance
      (object [("x", from_double (Double.finite 5 (-1)))])).1.int_fields 0 = 2 ∧
    (((init.add_int_member "x" 0).add_float_member "x" 0).translate zero_instance
      (object [("x", from_double (Double.finite 5 (-1)))])).1.float_fields 0 =
        Double.finite 0 0 := by
  refine ⟨rfl, by decide, rfl, by decide, by decide, by decide, by decide⟩

/-- The value returned by `translate_uniform` is that of `translate` on the
first structure, which receives the translation; for `size > 1` the second
structure is a copy of the translated first one. -/
theorem translate_uniform_first (tr : DataTranslator) (objects : Nat → value_type) (size : Int)
    (data : DataValue) :
    (tr.translate_uniform objects size data).2 = (tr.translate (objects 0) data).2 ∧
    (tr.translate_uniform objects size data).1 0 = (tr.translate (objects 0) data).1 ∧
    (1 < size → (tr.translate_uniform objects size data).1 1 =
      (tr.translate (objects 0) data).1) := by
  unfold translate_uniform
  by_cases h : size > 1
  · have h2 : 0 < (size - 1).toNat := by omega
    simp [h, memcpy, h2]
  · simp [h]

/-- C6 (failing input): three zero-valued structures, the binding `count` (the
`int` field 0) and the Object `{count: 7}` (the node that `add_member` makes of
an empty Object).  `translate_uniform` returns 1 and the first two structures
have `count = 7`, but the third has `count = 0`: the single `memcpy` of
`size - 1` structures from index 0 to index 1 gives it the former contents of
the second structure. -/
theorem translate_uniform_three :
    empty_object.add_named_member "count" (from_int32 7) =
      some (object [("count", from_int32 7)]) ∧
    ((init.add_int_member "count" 0).translate_uniform (fun _ => zero_instance) 3
      (object [("count", from_int32 7)])).2 = 1 ∧
    (((init.add_int_member "count" 0).translate_uniform (fun _ => zero_instance) 3
      (object [("count", from_int32 7)])).1 0).int_fields 0 = 7 ∧
    (((init.add_int_member "count" 0).translate_uniform (fun _ => zero_instance) 3
      (object [("count", from_int32 7)])).1 1).int_fields 0 = 7 ∧
    (((init.add_int_member "count" 0).translate_uniform (fun _ => zero_instance) 3
      (object [("count", from_int32 7)])).1 2).int_fields 0 = 0 := by
  refine ⟨rfl, by decide, by decide, by decide, by decide⟩

end DataTranslator

end serial

namespace serial

open DataValue

/-! ## Relational operators -/

theorem wrap_signed_32_eq_zero_symm (x y : Int) :
    wrap_signed 32 (x - y) = 0 ↔ wrap_signed 32 (y - x) = 0 := by
  simp only [wrap_signed]
  norm_num
  omega

theorem wrap_signed_64_32_eq_zero_symm (x y : Int) :
    wrap_signed 32 (wrap_signed 64 (x - y)) = 0 ↔ wrap_signed 32 (wrap_signed 64 (y - x)) = 0 := by
  simp only [wrap_signed]
  norm_num
  omega

/-- The result of `compare` is zero in one direction exactly when it is zero in
the other. -/
theorem compare_eq_zero_symm (a b : DataValue) : a.compare b = 0 ↔ b.compare a = 0 := by
  by_cases h : a.type = b.type
  · cases a <;> cases b <;> simp [DataValue.type] at h <;>
      simp [DataValue.compare, DataValue.type, Double.gt]
    · rename_i p q; cases p <;> cases q <;> simp
    · exact wrap_signed_32_eq_zero_symm _ _
    · rename_i x y
      rcases lt_trichotomy x y with h1 | h1 | h1
      · simp [h1, h1.ne, not_lt.mpr h1.le]
      · simp [h1]
      · simp [h1, h1.ne.symm, not_lt.mpr h1.le]
    · exact wrap_signed_64_32_eq_zero_symm _ _
    · rename_i x y
      rcases lt_trichotomy x y with h1 | h1 | h1
      · simp [h1, h1.ne, not_lt.mpr h1.le]
      · simp [h1]
      · simp [h1, h1.ne.symm, not_lt.mpr h1.le]
    · rename_i x y
      by_cases h1 : Double.lt x y = true <;> by_cases h2 : Double.lt y x = true <;>
        simp [h1, h2]
  · rw [compare_of_type_ne a b h, compare_of_type_ne b a (Ne.symm h)]
    omega

/-- The six operators in terms of `compare`, as the header derives them: `==`,
`!=`, `<` and `>=` from `lhs.compare(rhs)`, `>` and `<=` from
`rhs.compare(lhs)`. -/
theorem operators_from_compare (a b : DataValue) :
    (op_eq a b = true ↔ a.compare b = 0) ∧ (op_ne a b = true ↔ a.compare b ≠ 0) ∧
    (op_lt a b = true ↔ a.compare b < 0) ∧ (op_ge a b = true ↔ 0 ≤ a.compare b) ∧
    (op_gt a b = true ↔ b.compare a < 0) ∧ (op_le a b = true ↔ 0 ≤ b.compare a) := by
  refine ⟨by simp [op_eq], ?_, by simp [op_lt], by simp [op_ge, op_lt],
    by simp [op_gt, op_lt], by simp [op_le, op_lt]⟩
  simp only [op_ne, op_eq, Bool.not_eq_true', decide_eq_false_iff_not, ne_eq]
  rw [compare_eq_zero_symm]

/-- C11 (failing input): for the Int64 values 2147483648 and 0, both in range,
`a.compare(b)` and `b.compare(a)` are both -2147483648.  So `a > b` holds
although `a.compare(b) > 0` does not, and `a <= b` fails although
`a.compare(b) <= 0` holds. -/
theorem operators_int64_inconsistent :
    (from_int64 2147483648).in_range = true ∧ (from_int64 0).in_range = true ∧
    (from_int64 2147483648).compare (from_int64 0) = -2147483648 ∧
    (from_int64 0).compare (from_int64 2147483648) = -2147483648 ∧
    op_gt (from_int64 2147483648) (from_int64 0) = true ∧
    op_le (from_int64 2147483648) (from_int64 0) = false := by
  refine ⟨by decide, by decide, by decide, by decide, by decide, by decide⟩

/-! ## Range predicates -/

/-- On UInt32, Int64 and UInt64 values in range `is_uint()` is the test
`0 <= n <= 2^32 - 1`; on an Int32 value it always holds. -/
theorem is_uint_cases (x : Int) :
    (uint32_t_min ≤ x → x ≤ uint32_t_max → (uint x).is_uint = true) ∧
    ((int64 x).is_uint = true ↔ 0 ≤ x ∧ x ≤ 4294967295) ∧
    (uint64_t_min ≤ x → ((uint64 x).is_uint = true ↔ 0 ≤ x ∧ x ≤ 4294967295)) ∧
    (int x).is_uint = true := by
  refine ⟨fun _ _ => rfl, ?_, ?_, ?_⟩
  · simp only [is_uint, wrap_signed, uint32_t_min, uint32_t_max]
    norm_num
  · intro h
    simp only [is_uint, wrap_unsigned, uint32_t_max, uint64_t_min] at *
    norm_num
    omega
  · simp only [is_uint, wrap_unsigned, uint32_t_min, uint32_t_max]
    norm_num
    omega

/-- C12 (failing input): `DataValue(std::int32_t(-1))` stores a negative number
in range, and `is_uint()` holds for it. -/
theorem is_uint_negative_int32 :
    (from_int32 (-1)).type = .type_int ∧ (from_int32 (-1)).in_range = true ∧
    (from_int32 (-1)).stored_integer = -1 ∧ (from_int32 (-1)).is_uint = true := by
  refine ⟨rfl, by decide, rfl, by decide⟩

/-- On a UInt32 or UInt64 value `is_uint64()` holds; on an Int64 value it is the
test `n >= -1`; on an Int32 value it always holds. -/
theorem is_uint64_cases (x : Int) :
    (uint x).is_uint64 = true ∧ (uint64 x).is_uint64 = true ∧
    ((int64 x).is_uint64 = true ↔ -1 ≤ x) ∧ (int x).is_uint64 = true := by
  refine ⟨rfl, rfl, ?_, rfl⟩
  simp only [is_uint64, wrap_signed, uint64_t_max]
  norm_num

/-- C13 (failing input): `DataValue(std::int64_t(-1))` and
`DataValue(std::int32_t(-1))` store a negative number in range, and
`is_uint64()` holds for both. -/
theorem is_uint64_negative :
    (from_int64 (-1)).in_range = true ∧ (from_int64 (-1)).stored_integer = -1 ∧
    (from_int64 (-1)).is_uint64 = true ∧
    (from_int32 (-1)).in_range = true ∧ (from_int32 (-1)).stored_integer = -1 ∧
    (from_int32 (-1)).is_uint64 = true := by
  refine ⟨by decide, rfl, by decide, by decide, rfl, by decide⟩

/-- C14: for a value stored as Int32, UInt32, Int64 or UInt64 (the number `n`
in the range of the stored type), `is_int()` holds exactly when
`-2^31 <= n <= 2^31 - 1`, and then `as_int()` returns `n`. -/
theorem is_int_exact (v : DataValue) (hk : v.type.is_integer = true)
    (hr : v.in_range = true) :
    (v.is_int = true ↔ -2147483648 ≤ v.stored_integer ∧ v.stored_integer ≤ 2147483647) ∧
    (v.is_int = true → v.as_int = v.stored_integer) := by
  cases v <;> simp [DataValue.type, data_type.is_integer] at hk <;>
    simp only [in_range, int32_t_min, int32_t_max, uint32_t_min, uint32_t_max, int64_t_min,
      int64_t_max, uint64_t_min, uint64_t_max, decide_eq_true_eq] at hr <;>
    simp only [is_int, as_int, stored_integer, wrap_signed, wrap_unsigned, int32_t_min,
      int32_t_max, Bool.and_eq_true, decide_eq_true_eq, ge_iff_le] <;>
    norm_num <;> omega

/-- Witness of C14 on `DataValue(std::uint32_t(7))`. -/
theorem is_int_exact_witness :
    (from_uint32 7).type.is_integer = true ∧ (from_uint32 7).in_range = true ∧
    (from_uint32 7).is_int = true ∧ (from_uint32 7).as_int = 7 :=
  have h := is_int_exact (from_uint32 7) (by decide) (by decide)
  ⟨by decide, by decide, h.1.mpr (by decide), h.2 (h.1.mpr (by decide))⟩

/-- C15: for a value stored as Int32, UInt32, Int64 or UInt64 (the number `n`
in the range of the stored type), `is_int64()` holds exactly when
`-2^63 <= n <= 2^63 - 1`, and then `as_int64()` returns `n`. -/
theorem is_int64_exact (v : DataValue) (hk : v.type.is_integer = true)
    (hr : v.in_range = true) :
    (v.is_int64 = true ↔
      -9223372036854775808 ≤ v.stored_integer ∧ v.stored_integer ≤ 9223372036854775807) ∧
    (v.is_int64 = true → v.as_int64 = v.stored_integer) := by
  cases v <;> simp [DataValue.type, data_type.is_integer] at hk <;>
    simp only [in_range, int32_t_min, int32_t_max, uint32_t_min, uint32_t_max, int64_t_min,
      int64_t_max, uint64_t_min, uint64_t_max, decide_eq_true_eq] at hr <;>
    simp only [is_int64, as_int64, stored_integer, wrap_signed, wrap_unsigned, int64_t_min,
      int64_t_max, Bool.and_eq_true, decide_eq_true_eq, ge_iff_le] <;>
    norm_num <;> omega

/-- Witness of C15 on `DataValue(std::uint64_t(2^63))`, which does not fit, and
on `DataValue(std::int32_t(-7))`, which does. -/
theorem is_int64_exact_witness :
    (from_uint64 9223372036854775808).in_range = true ∧
    (from_uint64 9223372036854775808).is_int64 = false ∧
    (from_int32 (-7)).is_int64 = true ∧ (from_int32 (-7)).as_int64 = -7 :=
  have h1 := is_int64_exact (from_uint64 9223372036854775808) (by decide) (by decide)
  have h2 := is_int64_exact (from_int32 (-7)) (by decide) (by decide)
  ⟨by decide, by
    cases hb : (from_uint64 9223372036854775808).is_int64
    · rfl
    · exact absurd (h1.1.mp hb).2 (by decide),
    h2.1.mpr (by decide), h2.2 (h2.1.mpr (by decide))⟩

end serial

namespace serial

open DataValue

/-! ## Kind queries -/

/-- On a value whose kind is not Double, `is_integral()` is the test for an
integer kind. -/
theorem is_integral_non_double (v : DataValue) (h : v.type ≠ .type_double) :
    v.is_integral = v.type.is_integer := by
  cases v <;> simp [DataValue.type] at h <;>
    simp [is_integral, is_int, is_uint, is_int64, is_uint64, DataValue.type,
      data_type.is_integer]

/-- C16 (failing input): `DataValue(2.5)` and `DataValue(5.0)` are of kind
Double, and `is_integral()` holds for both. -/
theorem is_integral_double :
    (from_double (Double.finite 5 (-1))).type = .type_double ∧
    (from_double (Double.finite 5 (-1))).is_integral = true ∧
    (from_double (Double.finite 5 0)).type = .type_double ∧
    (from_double (Double.finite 5 0)).is_integral = true := by
  refine ⟨rfl, by decide, rfl, by decide⟩

/-- The test `is_numeric()` holds exactly for the numeric kinds. -/
theorem is_numeric_eq_kind (v : DataValue) : v.is_numeric = v.type.is_numeric_kind := by
  cases v <;>
    simp [is_numeric, is_double, is_integral, is_int, is_uint, is_int64, is_uint64,
      DataValue.type, data_type.is_numeric_kind, data_type.is_integer]

/-! ## Conversion of integers to double -/

theorem Double.bit_length_aux_zero (fuel : Nat) : Double.bit_length_aux fuel 0 = 0 := by
  cases fuel <;> simp [Double.bit_length_aux]

theorem Double.bit_length_aux_pos (fuel : Nat) :
    ∀ n, 0 < n → n ≤ fuel →
      0 < Double.bit_length_aux fuel n ∧ 2 ^ (Double.bit_length_aux fuel n - 1) ≤ n := by
  induction fuel with
  | zero => intro n h1 h2; omega
  | succ fuel ih =>
    intro n h1 h2
    have hn : n ≠ 0 := by omega
    simp only [Double.bit_length_aux, hn, if_false]
    refine ⟨by omega, ?_⟩
    by_cases h0 : n / 2 = 0
    · rw [h0, Double.bit_length_aux_zero]
      simpa using h1
    · have hpos : 0 < n / 2 := Nat.pos_of_ne_zero h0
      obtain ⟨ha, hb⟩ := ih (n / 2) hpos (by omega)
      have h2pow : 2 ^ (Double.bit_length_aux fuel (n / 2) + 1 - 1) =
          2 * 2 ^ (Double.bit_length_aux fuel (n / 2) - 1) := by
        rw [Nat.add_sub_cancel, ← pow_succ']
        congr 1
        omega
      rw [h2pow]
      omega

/-- The leading binary digit: `2 ^ (bit_length n - 1) ≤ n` for `n > 0`. -/
theorem Double.bit_length_pos (n : Nat) (h : 0 < n) :
    0 < Double.bit_length n ∧ 2 ^ (Double.bit_length n - 1) ≤ n :=
  Double.bit_length_aux_pos n n h (le_refl n)

theorem Double.round_shift_pos (n s : Nat) (h : 2 ^ s ≤ n) : 0 < Double.round_shift n s := by
  have h1 : 0 < n / 2 ^ s := Nat.div_pos h (by positivity)
  unfold Double.round_shift
  split <;> omega

theorem Double.eq_zero_iff (m e : Int) :
    Double.eq (Double.finite m e) (Double.finite 0 0) = true ↔ m = 0 := by
  simp [Double.eq, Double.scale]

/-- The conversion of an integer to `double` compares equal to `0.0` exactly
for the integer 0. -/
theorem Double.ofInt_eq_zero_iff (n : Int) :
    Double.eq (Double.ofInt n) (Double.finite 0 0) = true ↔ n = 0 := by
  by_cases hn : n = 0
  · subst hn
    simp only [iff_true]
    decide
  · simp only [hn, iff_false, Bool.not_eq_true]
    have hpos : 0 < n.natAbs := Int.natAbs_pos.mpr hn
    obtain ⟨hbl, hle⟩ := Double.bit_length_pos n.natAbs hpos
    have hmax : max ((Double.bit_length n.natAbs : Int) - 1 + 0) (-1022) =
        (Double.bit_length n.natAbs : Int) - 1 := by
      rw [max_eq_left] <;> omega
    unfold Double.ofInt Double.round
    simp only [hmax]
    by_cases hq : (Double.bit_length n.natAbs : Int) - 1 - ((53 : Nat) - 1 : Int) ≤ 0
    · simp only [hq, if_true]
      split
      · rfl
      · simp [Double.eq, Double.scale, hn]
    · simp only [hq, if_false]
      split
      · rfl
      · have hs : ((Double.bit_length n.natAbs : Int) - 1 - ((53 : Nat) - 1 : Int) - 0).toNat ≤
            Double.bit_length n.natAbs - 1 := by omega
        have hrs := Double.round_shift_pos n.natAbs _
          (le_trans (Nat.pow_le_pow_right (by norm_num) hs) hle)
        simp only [Nat.cast_ofNat, Int.reduceSub, sub_zero] at hrs
        simp [Double.eq, Double.scale, hn]
        omega

end serial

namespace serial

open DataValue

/-! ## Convertibility -/

/-- C17: for a value of an integer kind `is_convertable_to(Null)` holds exactly
when the stored number is 0, and for a Bool value exactly when the boolean is
false. -/
theorem convertable_to_null_scalar (v : DataValue) (b : Bool) :
    (v.type.is_integer = true →
      (v.is_convertable_to .type_null = true ↔ v.stored_integer = 0)) ∧
    ((from_bool b).is_convertable_to .type_null = true ↔ b = false) := by
  refine ⟨?_, ?_⟩
  · intro hk
    have hnum : v.is_numeric = true := by
      rw [is_numeric_eq_kind]
      simp [data_type.is_numeric_kind, hk]
    cases v <;> simp [DataValue.type, data_type.is_integer] at hk <;>
      simp [is_convertable_to, hnum, DataValue.type, as_double, stored_integer,
        Double.ofInt_eq_zero_iff]
  · cases b <;> decide

/-- Witness of C17: `Int32(0)` and `Bool(false)` are convertible to Null,
`Int32(1)` is not. -/
theorem convertable_to_null_scalar_witness :
    (from_int32 0).type.is_integer = true ∧
    (from_int32 0).is_convertable_to .type_null = true ∧
    (from_bool false).is_convertable_to .type_null = true ∧
    (from_int32 1).is_convertable_to .type_null = false :=
  ⟨by decide,
    ((convertable_to_null_scalar (from_int32 0) false).1 (by decide)).mpr rfl,
    (convertable_to_null_scalar (from_int32 0) false).2.mpr rfl,
    by
      cases hb : (from_int32 1).is_convertable_to .type_null
      · rfl
      · exact absurd
          (((convertable_to_null_scalar (from_int32 1) false).1 (by decide)).mp hb)
          (by decide)⟩

/-- A String, Array or Object that is not empty is not convertible to Null,
and an empty String is. -/
theorem convertable_to_null_container (s : String) (a : List DataValue)
    (m : List (String × DataValue)) :
    ((string s).is_convertable_to .type_null = true ↔ s = "") ∧
    (a ≠ [] → (array a).is_convertable_to .type_null = false) ∧
    (m ≠ [] → (object m).is_convertable_to .type_null = false) := by
  refine ⟨?_, ?_, ?_⟩
  · simp [is_convertable_to, DataValue.type, is_numeric, is_double, is_integral, is_int,
      is_uint, is_int64, is_uint64, m_ptr, as_string, String.ext_iff]
  · intro h
    cases a with
    | nil => exact absurd rfl h
    | cons x xs =>
      simp [is_convertable_to, DataValue.type, is_numeric, is_double, is_integral, is_int,
        is_uint, is_int64, is_uint64, m_ptr, m_array]
  · intro h
    cases m with
    | nil => exact absurd rfl h
    | cons x xs =>
      simp [is_convertable_to, DataValue.type, is_numeric, is_double, is_integral, is_int,
        is_uint, is_int64, is_uint64, m_ptr, m_object]

/-- C18 (failing input): the Array and the Object made by
`DataValue( type_array )` / `DataValue( type_object )` or by `set_array()` /
`set_object()` on a fresh node are not convertible to Null; they hold no
container, and their `size()` is not defined.  The empty Array and the empty
Object made by copying them have size 0, and are not convertible to Null
either. -/
theorem empty_container_to_null :
    (from_type .type_array).type = .type_array ∧
    (from_type .type_array).is_convertable_to .type_null = false ∧
    ((from_type .type_null).set_array).type = .type_array ∧
    ((from_type .type_null).set_array).is_convertable_to .type_null = false ∧
    (from_type .type_object).type = .type_object ∧
    (from_type .type_object).is_convertable_to .type_null = false ∧
    ((from_type .type_null).set_object).type = .type_object ∧
    ((from_type .type_null).set_object).is_convertable_to .type_null = false ∧
    (from_type .type_array).size = none ∧ (from_type .type_object).size = none ∧
    empty_array = array [] ∧ empty_array.size = 0 ∧
    empty_array.is_convertable_to .type_null = false ∧
    empty_object = object [] ∧ empty_object.size = 0 ∧
    empty_object.is_convertable_to .type_null = false := by
  refine ⟨rfl, by decide, rfl, by decide, rfl, by decide, rfl, by decide, rfl, rfl, rfl, rfl,
    by decide, rfl, rfl, by decide⟩

/-- C19: for every value `v` and every target kind `t` other than Null,
`v.is_convertable_to(t)` is the entry of the reference table
(`convertable_table`).  In particular a String converts to no other kind than
String, and only a Null value converts to an Array or Object kind that is not
its own. -/
theorem convertable_matches_table (v : DataValue) (t : data_type) (ht : t ≠ .type_null) :
    v.is_convertable_to t = v.convertable_table t ∧
    (v.type = .type_string → t ≠ .type_string → v.is_convertable_to t = false) ∧
    (t = .type_array ∨ t = .type_object → t ≠ v.type → v.type ≠ .type_null →
      v.is_convertable_to t = false) := by
  have hnum := is_numeric_eq_kind v
  refine ⟨?_, ?_, ?_⟩
  · cases t <;> simp at ht <;>
      simp [is_convertable_to, convertable_table, hnum, instBEqOfDecidableEq]
  · intro hv hts
    have hts2 : ¬ t = v.type := by rw [hv]; exact hts
    cases v <;> simp [DataValue.type] at hv
    cases t <;> simp at ht hts <;>
      simp [is_convertable_to, DataValue.type, is_numeric, is_double, is_integral, is_int,
        is_uint, is_int64, is_uint64]
  · intro h1 h2 h3
    rcases h1 with h1 | h1 <;> subst h1 <;> simp [is_convertable_to, h2, h3]

/-- Witness of C19: an Int32 in range of `std::uint32_t` converts to UInt32 and
to String but not to Array; a String does not convert to Bool. -/
theorem convertable_matches_table_witness :
    (from_int32 7).is_convertable_to .type_uint = (from_int32 7).convertable_table .type_uint ∧
    (from_int32 7).is_convertable_to .type_uint = true ∧
    (from_int32 7).is_convertable_to .type_string = true ∧
    (from_int32 7).is_convertable_to .type_array = false ∧
    (null.set_string "x").is_convertable_to .type_bool = false :=
  ⟨(convertable_matches_table (from_int32 7) .type_uint (by decide)).1,
    by decide, by decide,
    (convertable_matches_table (from_int32 7) .type_array (by decide)).2.2 (Or.inl rfl)
      (by decide) (by decide),
    (convertable_matches_table (null.set_string "x") .type_bool
      (by decide)).2.1 rfl (by decide)⟩

end serial

namespace serial

open DataValue

/-! ## Key order and object construction -/

theorem chars_less_trans :
    ∀ a b c : List Char, chars_less a b = true → chars_less b c = true →
      chars_less a c = true := by
  intro a
  induction a with
  | nil =>
    intro b c h1 h2
    cases b with
    | nil => simp [chars_less] at h1
    | cons y bs =>
      cases c with
      | nil => simp [chars_less] at h2
      | cons z cs => simp [chars_less]
  | cons x as ih =>
    intro b c h1 h2
    cases b with
    | nil => simp [chars_less] at h1
    | cons y bs =>
      cases c with
      | nil => simp [chars_less] at h2
      | cons z cs =>
        simp only [chars_less] at h1 h2 ⊢
        by_cases hxy : x.toNat < y.toNat
        · by_cases hyz : y.toNat < z.toNat
          · have hxz : x.toNat < z.toNat := by omega
            simp [hxz]
          · by_cases hzy : z.toNat < y.toNat
            · simp [hyz, hzy] at h2
            · have hxz : x.toNat < z.toNat := by omega
              simp [hxz]
        · by_cases hyx : y.toNat < x.toNat
          · simp [hxy, hyx] at h1
          · simp only [hxy, hyx, if_false] at h1
            by_cases hyz : y.toNat < z.toNat
            · have hxz : x.toNat < z.toNat := by omega
              simp [hxz]
            · by_cases hzy : z.toNat < y.toNat
              · simp [hyz, hzy] at h2
              · simp only [hyz, hzy, if_false] at h2
                have hxz : ¬ x.toNat < z.toNat := by omega
                have hzx : ¬ z.toNat < x.toNat := by omega
                simp only [hxz, hzx, if_false]
                exact ih bs cs h1 h2

theorem chars_less_connex :
    ∀ a b : List Char, chars_less a b = false → chars_less b a = false → a = b := by
  intro a
  induction a with
  | nil =>
    intro b h1 _
    cases b with
    | nil => rfl
    | cons y bs => simp [chars_less] at h1
  | cons x as ih =>
    intro b h1 h2
    cases b with
    | nil => simp [chars_less] at h2
    | cons y bs =>
      simp only [chars_less] at h1 h2
      by_cases hxy : x.toNat < y.toNat
      · simp [hxy] at h1
      · by_cases hyx : y.toNat < x.toNat
        · simp [hyx] at h2
        · simp only [hxy, hyx, if_false] at h1 h2
          have hnat : x.toNat = y.toNat := by omega
          have hc : x = y := Char.ext (UInt32.ext hnat)
          rw [hc, ih bs h1 h2]

theorem key_less_trans (a b c : String) (h1 : key_less a b = true) (h2 : key_less b c = true) :
    key_less a c = true :=
  chars_less_trans _ _ _ h1 h2

theorem key_less_connex (a b : String) (h1 : key_less a b = false) (h2 : key_less b a = false) :
    a = b :=
  String.ext (chars_less_connex _ _ h1 h2)

/-- An entry of the map after `m[key] = v` is the assigned entry or an entry
of the map before. -/
theorem mem_map_assign {V : Type} (m : List (String × V)) (key : String) (v : V)
    (y : String × V) (h : y ∈ map_assign m key v) : y = (key, v) ∨ y ∈ m := by
  induction m with
  | nil => simpa [map_assign] using h
  | cons x rest ih =>
    obtain ⟨k, w⟩ := x
    simp only [map_assign] at h
    split at h
    · rcases List.mem_cons.mp h with h | h
      · exact Or.inl h
      · exact Or.inr h
    · split at h
      · rcases List.mem_cons.mp h with h | h
        · exact Or.inr (h ▸ List.mem_cons_self _ _)
        · rcases ih h with h | h
          · exact Or.inl h
          · exact Or.inr (List.mem_cons_of_mem _ h)
      · rcases List.mem_cons.mp h with h | h
        · exact Or.inl h
        · exact Or.inr (List.mem_cons_of_mem _ h)

/-- The keys of the map after `m[key] = v` are `key` and the keys before. -/
theorem map_assign_keys {V : Type} (m : List (String × V)) (key : String) (v : V)
    (k : String) :
    k ∈ (map_assign m key v).map Prod.fst ↔ k = key ∨ k ∈ m.map Prod.fst := by
  induction m with
  | nil => simp [map_assign]
  | cons x rest ih =>
    obtain ⟨k0, w⟩ := x
    simp only [map_assign]
    by_cases h1 : key_less key k0 = true
    · simp [h1]
    · by_cases h2 : key_less k0 key = true
      · have h1f : key_less key k0 = false := by simpa using h1
        simp only [h1f, h2, if_true, List.map_cons, List.mem_cons, ih, Bool.false_eq_true,
          if_false]
        tauto
      · have h1f : key_less key k0 = false := by simpa using h1
        have h2f : key_less k0 key = false := by simpa using h2
        have hk : key = k0 := key_less_connex _ _ h1f h2f
        subst hk
        simp [h1f]

/-- The assignment `m[key] = v` keeps the entries in strictly increasing key
order. -/
theorem map_assign_sorted {V : Type} (m : List (String × V)) (key : String) (v : V)
    (h : sorted_keys m) : sorted_keys (map_assign m key v) := by
  induction m with
  | nil => simp [map_assign, sorted_keys]
  | cons x rest ih =>
    obtain ⟨k0, w⟩ := x
    unfold sorted_keys at h ih ⊢
    rw [List.pairwise_cons] at h
    simp only [map_assign]
    by_cases h1 : key_less key k0 = true
    · simp only [h1, if_true]
      refine List.pairwise_cons.mpr ⟨?_, List.pairwise_cons.mpr h⟩
      intro y hy
      rcases List.mem_cons.mp hy with hy | hy
      · rw [hy]; exact h1
      · exact key_less_trans _ _ _ h1 (h.1 y hy)
    · by_cases h2 : key_less k0 key = true
      · have h1f : key_less key k0 = false := by simpa using h1
        simp only [h1f, h2, if_true, Bool.false_eq_true, if_false]
        refine List.pairwise_cons.mpr ⟨?_, ih h.2⟩
        intro y hy
        rcases mem_map_assign rest key v y hy with hy | hy
        · rw [hy]; exact h2
        · exact h.1 y hy
      · have h1f : key_less key k0 = false := by simpa using h1
        have h2f : key_less k0 key = false := by simpa using h2
        have hk : key = k0 := key_less_connex _ _ h1f h2f
        subst hk
        simp only [h1f, Bool.false_eq_true, if_false]
        exact List.pairwise_cons.mpr ⟨fun y hy => h.1 y hy, h.2⟩

namespace DataValue

/-- The named `add_member` on an Object assigns a copy of the value in its
entries. -/
theorem add_named_member_object (m : List (String × DataValue)) (name : String)
    (value : DataValue) :
    (object m).add_named_member name value =
      some (object (map_assign m name (copy value))) := by
  simp [add_named_member, set_object, DataValue.type]

/-- The named `add_member` on a node that is not an Object has no defined
result. -/
theorem add_named_member_non_object (x : DataValue) (name : String) (value : DataValue)
    (h : x.type ≠ .type_object) : x.add_named_member name value = none := by
  cases x <;> simp [DataValue.type] at h <;> rfl

/-- Once a call is undefined, the calls that follow are. -/
theorem add_members_after_undefined (calls : List (String × DataValue)) :
    calls.foldl (fun node c => node.bind (fun x => x.add_named_member c.1 c.2))
      (none : Option DataValue) = none := by
  induction calls with
  | nil => rfl
  | cons c rest ih => simpa using ih

/-- A sequence of named `add_member` calls on an Object assigns the copies in
its entries, call after call. -/
theorem add_members_to_object (calls : List (String × DataValue)) :
    ∀ m : List (String × DataValue),
      add_members_to (object m) calls =
        some (object (calls.foldl (fun m c => map_assign m c.1 (copy c.2)) m)) := by
  induction calls with
  | nil => intro m; rfl
  | cons c rest ih =>
    intro m
    have h := ih (map_assign m c.1 (copy c.2))
    unfold add_members_to at h ⊢
    rw [List.foldl_cons, Option.bind, add_named_member_object]
    exact h

/-- A sequence of named `add_member` calls that starts on a node that is not
an Object has no defined result. -/
theorem add_members_to_non_object (x : DataValue) (c : String × DataValue)
    (rest : List (String × DataValue)) (h : x.type ≠ .type_object) :
    add_members_to x (c :: rest) = none := by
  unfold add_members_to
  rw [List.foldl_cons, Option.bind, add_named_member_non_object x c.1 c.2 h]
  exact add_members_after_undefined rest

theorem foldl_map_assign_sorted (calls : List (String × DataValue)) :
    ∀ m : List (String × DataValue), sorted_keys m →
      sorted_keys (calls.foldl (fun m c => map_assign m c.1 (copy c.2)) m) := by
  induction calls with
  | nil => intro m h; exact h
  | cons c rest ih => intro m h; exact ih _ (map_assign_sorted m c.1 _ h)

theorem foldl_map_assign_keys (calls : List (String × DataValue)) :
    ∀ (m : List (String × DataValue)) (k : String),
      k ∈ (calls.foldl (fun m c => map_assign m c.1 (copy c.2)) m).map Prod.fst ↔
        k ∈ calls.map Prod.fst ∨ k ∈ m.map Prod.fst := by
  induction calls with
  | nil => intro m k; simp
  | cons c rest ih =>
    intro m k
    rw [List.foldl_cons, ih, map_assign_keys]
    simp only [List.map_cons, List.mem_cons]
    tauto

theorem visited_keys_object (m : List (String × DataValue)) :
    (object m).visited_keys = some (m.map Prod.fst) := by
  have h : ∀ (l : List (String × DataValue)) (acc : List String),
      l.foldl (fun acc x => acc ++ [x.1]) acc = acc ++ l.map Prod.fst := by
    intro l
    induction l with
    | nil => intro acc; simp
    | cons x l ih => intro acc; simp [ih]
  simp [visited_keys, for_each_object, h]

/-- On an Object whose entries are in key order, any sequence of calls
`add_member(name_i, value_i)` gives an Object on which `for_each_object`
invokes the callback on keys that are in strictly increasing lexicographic
order, without repetition, and are exactly the names added and the keys held
before; `size()` is their number. -/
theorem add_members_to_sorted_unique (m : List (String × DataValue)) (hs : sorted_keys m)
    (calls : List (String × DataValue)) :
    ∃ (built : DataValue) (keys : List String),
      add_members_to (object m) calls = some built ∧
      built.type = .type_object ∧
      built.visited_keys = some keys ∧
      keys.Pairwise (fun a b => key_less a b = true) ∧
      keys.Nodup ∧
      (∀ k, k ∈ keys ↔ k ∈ calls.map Prod.fst ∨ k ∈ m.map Prod.fst) ∧
      built.size = keys.length := by
  have hsorted := foldl_map_assign_sorted calls m hs
  have hkeys := foldl_map_assign_keys calls m
  have hobj := add_members_to_object calls m
  generalize calls.foldl (fun m c => map_assign m c.1 (copy c.2)) m = r at hobj hsorted hkeys
  have hpair : (r.map Prod.fst).Pairwise (fun a b => key_less a b = true) :=
    List.pairwise_map.mpr hsorted
  have hnodup : (r.map Prod.fst).Nodup := by
    refine List.Pairwise.imp ?_ hpair
    intro a b hab heq
    rw [heq, key_less_irrefl] at hab
    exact Bool.false_ne_true hab
  exact ⟨object r, r.map Prod.fst, hobj, rfl, visited_keys_object r, hpair, hnodup, hkeys,
    by simp [size]⟩

/-- On an empty Object the keys visited after any sequence of calls
`add_member(name_i, value_i)` are exactly the names added, and `size()` is the
number of distinct names. -/
theorem add_members_to_empty_object (calls : List (String × DataValue)) :
    ∃ (built : DataValue) (keys : List String),
      add_members_to empty_object calls = some built ∧
      built.visited_keys = some keys ∧
      keys.Pairwise (fun a b => key_less a b = true) ∧
      keys.Nodup ∧
      (∀ k, k ∈ keys ↔ k ∈ calls.map Prod.fst) ∧
      built.size = keys.length ∧
      built.size = (calls.map Prod.fst).dedup.length := by
  obtain ⟨built, keys, h1, _, h3, h4, h5, h6, h7⟩ :=
    add_members_to_sorted_unique [] (by simp [sorted_keys]) calls
  have hmem : ∀ k, k ∈ keys ↔ k ∈ calls.map Prod.fst := by
    intro k
    rw [h6 k]
    simp
  refine ⟨built, keys, h1, h3, h4, h5, hmem, h7, ?_⟩
  rw [h7, ← List.toFinset_card_of_nodup h5, ← List.card_toFinset]
  congr 1
  ext k
  simp only [List.mem_toFinset]
  exact hmem k

/-- C20 (failing input): a fresh node is Null, `set_object()` leaves it bare,
and the call `add_member("b", DataValue(1))` on it has no defined result, also
after an explicit `set_object()` and on `DataValue( type_object )`; nor has the
sequence `b`, `a` or `a`, `b` of the claim.  The same calls on an empty Object
visit the keys `a`, `b` in that order, and the size is 2. -/
theorem add_members_fresh_node :
    from_type .type_null = node.constructed null ∧
    null.set_object = node.bare_object ∧
    null.add_named_member "b" (from_int32 1) = none ∧
    (null.set_object).add_named_member "b" (from_int32 1) = none ∧
    (from_type .type_object).add_named_member "b" (from_int32 1) = none ∧
    add_members [("b", from_int32 1), ("a", null.set_string "x")] = none ∧
    add_members [("a", from_int32 1), ("b", null.set_string "x")] = none ∧
    add_members_to empty_object [("b", from_int32 1), ("a", null.set_string "x")] =
      some (object [("a", string "x"), ("b", int 1)]) ∧
    (object [("a", string "x"), ("b", int 1)]).visited_keys = some ["a", "b"] ∧
    (object [("a", string "x"), ("b", int 1)]).size = 2 := by
  refine ⟨rfl, rfl, rfl, rfl, rfl, rfl, rfl, rfl, by decide, rfl⟩

end DataValue

end serial

namespace serial

open DataValue

/-! ## Member access -/

/-- The lookup finds an entry exactly for the keys of the map. -/
theorem map_find_isSome_iff {V : Type} (m : List (String × V)) (key : String) :
    (map_find m key).isSome = true ↔ key ∈ m.map Prod.fst := by
  induction m with
  | nil => simp [map_find]
  | cons x rest ih =>
    obtain ⟨k, w⟩ := x
    by_cases h : k = key
    · simp [map_find, h]
    · simp only [map_find, h, if_false, ih, List.map_cons, List.mem_cons]
      constructor
      · intro h1; exact Or.inr h1
      · intro h1
        rcases h1 with h1 | h1
        · exact absurd h1.symm h
        · exact h1

namespace DataValue

/-- C21: `has_member(key)` is false for every node whose kind is not Object.
On an Object it is true exactly when `key` is the key of an entry; so on the
Object that calls `add_member(name_i, ..)` make of an Object it is true exactly
when `key` is one of the names added or a key held before, and on the one they
make of an empty Object exactly when `key` is one of the names added.  It is a
`const` member that returns a `bool` only. -/
theorem has_member_spec (v : DataValue) (key : String) (m : List (String × DataValue))
    (calls : List (String × DataValue)) :
    (v.type ≠ .type_object → v.has_member key = false) ∧
    ((object m).has_member key = true ↔ key ∈ m.map Prod.fst) ∧
    (∃ built, add_members_to (object m) calls = some built ∧
      (built.has_member key = true ↔ key ∈ calls.map Prod.fst ∨ key ∈ m.map Prod.fst)) ∧
    (∃ built, add_members_to empty_object calls = some built ∧
      (built.has_member key = true ↔ key ∈ calls.map Prod.fst)) := by
  refine ⟨?_, ?_, ?_, ?_⟩
  · intro h
    cases v <;> simp [DataValue.type] at h <;> rfl
  · simp only [has_member, map_find_isSome_iff]
  · refine ⟨_, add_members_to_object calls m, ?_⟩
    simp only [has_member, map_find_isSome_iff]
    exact foldl_map_assign_keys calls m key
  · refine ⟨_, add_members_to_object calls [], ?_⟩
    simp only [has_member, map_find_isSome_iff]
    rw [foldl_map_assign_keys]
    simp

/-- Witness of C21 on an Int32 node and on the Object `{a: 1}`, which is the
one made of an empty Object by adding `a`. -/
theorem has_member_spec_witness :
    (from_int32 5).type ≠ .type_object ∧ (from_int32 5).has_member "a" = false ∧
    (object [("a", int 1)]).has_member "a" = true ∧
    (object [("a", int 1)]).has_member "b" = false ∧
    add_members_to empty_object [("a", from_int32 1)] = some (object [("a", int 1)]) :=
  ⟨by decide,
    (has_member_spec (from_int32 5) "a" [] []).1 (by decide),
    (has_member_spec null "a" [("a", int 1)] []).2.1.mpr (by simp),
    by
      cases hb : (object [("a", int 1)]).has_member "b"
      · rfl
      · exact absurd ((has_member_spec null "b" [("a", int 1)] []).2.1.mp hb) (by simp),
    rfl⟩

end DataValue

end serial

namespace serial

open DataValue

namespace DataValue

/-! ## Array construction and iteration -/

/-- The result of `compare` on a value and itself. -/
theorem compare_eq_zero_self (x : DataValue) : x.compare x = 0 := by
  cases x <;>
    simp [DataValue.compare, data_type.toInt, DataValue.type, wrap_signed, Double.lt_irrefl,
      Double.gt]

/-- The copy of a value that is not an Array or Object is the value. -/
theorem copy_of_scalar (v : DataValue) (h : v.type ≠ .type_array ∧ v.type ≠ .type_object) :
    copy v = v := by
  cases v <;> simp [DataValue.type] at h <;> rfl

/-- The positional `add_member` on an Array appends a copy of the value. -/
theorem add_member_array (a : List DataValue) (v : DataValue) :
    (array a).add_member v = some (array (a ++ [copy v])) := by
  simp [add_member, is_null, DataValue.type]

/-- The positional `add_member` on a node that is not an Array, a fresh Null
node included, has no defined result. -/
theorem add_member_non_array (x v : DataValue) (h : x.type ≠ .type_array) :
    x.add_member v = none := by
  cases x <;> simp [DataValue.type] at h <;> rfl

/-- Once a call is undefined, the calls that follow are. -/
theorem add_array_members_after_undefined (vs : List DataValue) :
    vs.foldl (fun node v => node.bind (fun x => x.add_member v))
      (none : Option DataValue) = none := by
  induction vs with
  | nil => rfl
  | cons v rest ih => simpa using ih

theorem foldl_add_member (vs : List DataValue) :
    ∀ a : List DataValue,
      vs.foldl (fun node v => node.bind (fun x => x.add_member v)) (some (array a)) =
        some (array (a ++ vs.map copy)) := by
  induction vs with
  | nil => intro a; simp
  | cons v rest ih =>
    intro a
    rw [List.foldl_cons, Option.bind, add_member_array, ih]
    simp

theorem visited_children_array (a : List DataValue) :
    (array a).visited_children = some a := by
  have h : ∀ (l acc : List DataValue),
      l.foldl (fun acc x => acc ++ [x]) acc = acc ++ l := by
    intro l
    induction l with
    | nil => intro acc; simp
    | cons x l ih => intro acc; simp [ih]
  simp [visited_children, for_each_array, h]

/-- The calls `add_member(v_1)`, .., `add_member(v_n)` (no `v_i` an Array or
Object) on an empty Array give the Array of `v_1`, .., `v_n`: its `size()` is
`n`, `at(i)` returns a child that compares equal to the `i`-th value, and
`for_each_array` passes exactly these children to the callback, in insertion
order.  Each `add_member(v)` on an Array increases `size()` by one and leaves
`at(i)` as it was for the earlier indices.  On a node that is not an Array, a
fresh Null node included, the first call has no defined result. -/
theorem add_array_members_to_spec (vs : List DataValue)
    (hs : ∀ v ∈ vs, v.type ≠ .type_array ∧ v.type ≠ .type_object) :
    add_array_members_to empty_array vs = some (array vs) ∧ (array vs).type = .type_array ∧
    (array vs).size = vs.length ∧
    (∀ (i : Nat) (h : i < vs.length), ∃ child,
      (array vs).at_index i = .returned child (array vs) ∧
      op_eq child (vs.get ⟨i, h⟩) = true) ∧
    (array vs).visited_children = some vs ∧
    (∀ (a : List DataValue) (v : DataValue),
      (array a).add_member v = some (array (a ++ [copy v])) ∧
      (array (a ++ [copy v])).size = (array a).size + 1 ∧
      ∀ i, i < a.length → (array (a ++ [copy v])).at_index i =
        match (array a).at_index i with
        | .returned child _ => .returned child (array (a ++ [copy v]))
        | other => other) ∧
    (∀ (x v : DataValue) (rest : List DataValue), x.type ≠ .type_array →
      add_array_members_to x (v :: rest) = none) := by
  have hcopy : vs.map copy = vs := by
    conv_rhs => rw [← List.map_id vs]
    exact List.map_congr_left (fun v hv => copy_of_scalar v (hs v hv))
  refine ⟨?_, rfl, rfl, ?_, visited_children_array vs, ?_, ?_⟩
  · have h := foldl_add_member vs []
    rw [hcopy] at h
    simpa using h
  · intro i h
    refine ⟨vs.get ⟨i, h⟩, ?_, ?_⟩
    · simp [at_index, List.getElem?_eq_getElem, h]
    · simp [op_eq, compare_eq_zero_self]
  · intro a v
    refine ⟨add_member_array a v, by simp [size], ?_⟩
    intro i hi
    have h2 : (a ++ [copy v])[i]? = some (a.get ⟨i, hi⟩) := by
      rw [List.getElem?_append_left hi, List.getElem?_eq_getElem hi]
      rfl
    have h3 : a[i]? = some (a.get ⟨i, hi⟩) := by
      rw [List.getElem?_eq_getElem hi]
      rfl
    simp only [at_index, h2, h3]
  · intro x v rest hx
    unfold add_array_members_to
    rw [List.foldl_cons, Option.bind, add_member_non_array x v hx]
    exact add_array_members_after_undefined rest

/-- C24 (failing input): a fresh node is Null, `set_array()` leaves it bare, and
the call `add_member(DataValue(1))` on it has no defined result, also on
`DataValue( type_array )`; nor has the sequence `DataValue(1)`,
`DataValue(true)`.  The same calls on an empty Array give the Array of the two
values, of size 2, which `for_each_array` visits in insertion order. -/
theorem add_array_members_fresh_node :
    from_type .type_null = node.constructed null ∧
    null.set_array = node.bare_array ∧
    null.add_member (from_int32 1) = none ∧
    (from_type .type_array).add_member (from_int32 1) = none ∧
    add_array_members [from_int32 1, from_bool true] = none ∧
    add_array_members_to empty_array [from_int32 1, from_bool true] =
      some (array [from_int32 1, from_bool true]) ∧
    (array [from_int32 1, from_bool true]).size = 2 ∧
    (array [from_int32 1, from_bool true]).visited_children =
      some [from_int32 1, from_bool true] := by
  refine ⟨rfl, rfl, rfl, rfl, rfl, rfl, rfl, rfl⟩

/-- C25 (failing input): on the Int32 node `DataValue(5)` and on a fresh Null
node `for_each_array`, and on an Array node (`DataValue( type_array )`, or an
empty Array) `for_each_object`, have no defined behaviour (`none`): the source
raises nothing, its guard holds the comment `// throw` only, and the loop over
the inactive union member follows. -/
theorem for_each_wrong_kind :
    (from_int32 5).for_each_array (fun (n : Nat) (_ : DataValue) => n + 1) 0 = none ∧
    (from_type .type_null).for_each_array (fun (n : Nat) (_ : DataValue) => n + 1) 0 = none ∧
    (from_type .type_array).for_each_object
      (fun (n : Nat) (_ : String) (_ : DataValue) => n + 1) 0 = none ∧
    (from_int32 5).for_each_object
      (fun (n : Nat) (_ : String) (_ : DataValue) => n + 1) 0 = none ∧
    empty_array.for_each_object
      (fun (n : Nat) (_ : String) (_ : DataValue) => n + 1) 0 = none ∧
    empty_object.for_each_array (fun (n : Nat) (_ : DataValue) => n + 1) 0 = none := by
  refine ⟨rfl, rfl, rfl, rfl, rfl, rfl⟩

/-! ## Setters -/

/-- C26: whatever the node held before, after `set_bool(b)`, `set_int(i)`,
`set_uint(u)`, `set_int64(l)`, `set_uint64(m)` or `set_string(s)` its `type()`
is the kind of the setter, the matching accessor returns the argument,
`size()` is 1 and `has_member(k)` is false; after `set_null()` it is Null with
`size()` 0.  The result does not depend on the prior node. -/
theorem setters_postcondition (prior other : DataValue) (b : Bool) (i u l m : Int)
    (s k : String) :
    ((prior.set_bool b).type = .type_bool ∧ (prior.set_bool b).as_bool = b ∧
      (prior.set_bool b).size = 1 ∧ (prior.set_bool b).has_member k = false ∧
      prior.set_bool b = other.set_bool b) ∧
    ((prior.set_int i).type = .type_int ∧ (prior.set_int i).as_int = i ∧
      (prior.set_int i).size = 1 ∧ (prior.set_int i).has_member k = false ∧
      prior.set_int i = other.set_int i) ∧
    ((prior.set_uint u).type = .type_uint ∧ (prior.set_uint u).as_uint = u ∧
      (prior.set_uint u).size = 1 ∧ (prior.set_uint u).has_member k = false ∧
      prior.set_uint u = other.set_uint u) ∧
    ((prior.set_int64 l).type = .type_int64 ∧ (prior.set_int64 l).as_int64 = l ∧
      (prior.set_int64 l).size = 1 ∧ (prior.set_int64 l).has_member k = false ∧
      prior.set_int64 l = other.set_int64 l) ∧
    ((prior.set_uint64 m).type = .type_uint64 ∧ (prior.set_uint64 m).as_uint64 = m ∧
      (prior.set_uint64 m).size = 1 ∧ (prior.set_uint64 m).has_member k = false ∧
      prior.set_uint64 m = other.set_uint64 m) ∧
    ((prior.set_string s).type = .type_string ∧ (prior.set_string s).as_string = s ∧
      (prior.set_string s).size = 1 ∧ (prior.set_string s).has_member k = false ∧
      prior.set_string s = other.set_string s) ∧
    (prior.set_null.type = .type_null ∧ prior.set_null.size = 0 ∧
      prior.set_null = other.set_null) :=
  ⟨⟨rfl, rfl, rfl, rfl, rfl⟩, ⟨rfl, rfl, rfl, rfl, rfl⟩, ⟨rfl, rfl, rfl, rfl, rfl⟩,
    ⟨rfl, rfl, rfl, rfl, rfl⟩, ⟨rfl, rfl, rfl, rfl, rfl⟩, ⟨rfl, rfl, rfl, rfl, rfl⟩,
    ⟨rfl, rfl, rfl⟩⟩

end DataValue

end serial

namespace serial

open DataValue

/-! ## Registration -/

/-- After `m[key] = v` the lookup of `key` returns `v`. -/
theorem map_find_assign_self {V : Type} (m : List (String × V)) (key : String) (v : V) :
    map_find (map_assign m key v) key = some v := by
  induction m with
  | nil => simp [map_assign, map_find]
  | cons x rest ih =>
    obtain ⟨k, w⟩ := x
    simp only [map_assign]
    by_cases h1 : key_less key k = true
    · simp [h1, map_find]
    · have h1f : key_less key k = false := by simpa using h1
      by_cases h2 : key_less k key = true
      · have hk : k ≠ key := by
          intro h
          rw [h, key_less_irrefl] at h2
          exact Bool.false_ne_true h2
        simp [h1f, h2, map_find, hk, ih]
      · have h2f : key_less k key = false := by simpa using h2
        simp [h1f, h2f, map_find]

namespace DataTranslator

/-- C27 (failing input): after `add_member("x", f)` and `add_member("x", g)`
with two `int` members, `members()` is 2 while the maps hold one entry, the
second call having replaced the entry of the first. -/
theorem members_after_reregistration :
    ((init.add_int_member "x" 0).add_int_member "x" 1).members = 2 ∧
    ((init.add_int_member "x" 0).add_int_member "x" 1).m_int_members = [("x", 1)] ∧
    ((init.add_int_member "x" 0).add_int_member "x" 1).entry_count = 1 := by
  refine ⟨by decide, by decide, by decide⟩

/-- The value returned by `translate` and the structure it leaves for an Object
of one entry. -/
theorem translate_single (tr : DataTranslator) (obj : value_type) (n : String)
    (child : DataValue) :
    tr.translate obj (object [(n, child)]) = tr.translate_entry (obj, 0) n child := by
  rw [translate_object]
  rfl

/-- Last registration wins for `int`, `bool` and `std::string` members, and for
`float` members when the Double child fails `is_integral()`: after
`add_member(n, f)` and `add_member(n, g)`, translating `{n: child}` writes the
converted child to the field `g` only and returns 1. -/
theorem reregistered_last_wins (tr : DataTranslator) (obj : value_type) (n : String)
    (f g : Nat) (child : DataValue) :
    (child.type.is_integer = true →
      ((tr.add_int_member n f).add_int_member n g).translate obj (object [(n, child)]) =
        ({ obj with int_fields := Function.update obj.int_fields g child.as_int }, 1)) ∧
    (child.type = .type_bool →
      ((tr.add_bool_member n f).add_bool_member n g).translate obj (object [(n, child)]) =
        ({ obj with bool_fields := Function.update obj.bool_fields g child.as_bool }, 1)) ∧
    (child.type = .type_string →
      ((tr.add_string_member n f).add_string_member n g).translate obj (object [(n, child)]) =
        ({ obj with string_fields := Function.update obj.string_fields g child.as_string },
          1)) ∧
    (child.type = .type_double → child.is_integral = false →
      ((tr.add_float_member n f).add_float_member n g).translate obj (object [(n, child)]) =
        ({ obj with
            float_fields := Function.update obj.float_fields g child.as_double.toFloat },
          1)) := by
  refine ⟨?_, ?_, ?_, ?_⟩
  · intro h
    have h1 := is_integral_of_integer child h
    rw [translate_single]
    simp [translate_entry, h1, add_int_member, map_find_assign_self]
  · intro h
    obtain ⟨h1, h2⟩ := queries_of_bool child h
    rw [translate_single]
    simp [translate_entry, h1, h2, add_bool_member, map_find_assign_self]
  · intro h
    obtain ⟨h1, h2, h3, h4⟩ := queries_of_string child h
    rw [translate_single]
    simp [translate_entry, h1, h2, h3, h4, add_string_member, map_find_assign_self]
  · intro h h1
    have h2 : child.is_bool = false := by simp [is_bool, h]
    have h3 : child.is_double = true := by simp [is_double, h]
    rw [translate_single]
    simp [translate_entry, h1, h2, h3, add_float_member, map_find_assign_self]

/-- C28 (failing input): after `add_member("n", f)` and `add_member("n", g)`
with two `float` members (fields 0 and 1), translating `{n: 2.5}`, whose child
is of kind Double (the node that `add_member` makes of an empty Object),
returns 0 and leaves the field `g` at 0: the child is looked up among the `int`
members. -/
theorem translate_reregistered_float :
    empty_object.add_named_member "n" (from_double (Double.finite 5 (-1))) =
      some (object [("n", from_double (Double.finite 5 (-1)))]) ∧
    map_find ((init.add_float_member "n" 0).add_float_member "n" 1).m_float_members "n" =
      some 1 ∧
    (from_double (Double.finite 5 (-1))).type = .type_double ∧
    (((init.add_float_member "n" 0).add_float_member "n" 1).translate zero_instance
      (object [("n", from_double (Double.finite 5 (-1)))])).2 = 0 ∧
    (((init.add_float_member "n" 0).add_float_member "n" 1).translate zero_instance
      (object [("n", from_double (Double.finite 5 (-1)))])).1.float_fields 1 =
        Double.finite 0 0 := by
  refine ⟨rfl, by decide, rfl, by decide, by decide⟩

/-- C29 (failing input): `set_bool()` with its default argument, and hence
`DataValue( type_bool )`, gives a Bool node whose `as_bool()` is false. -/
theorem set_bool_default_value :
    set_bool_default = false ∧
    from_type .type_null = node.constructed null ∧
    (null.set_bool set_bool_default).type = .type_bool ∧
    (null.set_bool set_bool_default).as_bool = false ∧
    (from_type .type_bool).type = .type_bool ∧
    from_type .type_bool = node.constructed (bool false) ∧ (bool false).as_bool = false := by
  refine ⟨rfl, rfl, rfl, rfl, rfl, rfl, rfl⟩

end DataTranslator

end serial

namespace serial

open DataValue

namespace DataValue

/-! ## Integer accessors -/

/-- The integer accessors on a value of an integer kind, by wrap-around. -/
theorem integer_accessors_kinds (v : DataValue) (hk : v.type.is_integer = true)
    (hr : v.in_range = true) :
    v.as_uint = v.stored_integer % 4294967296 ∧
    v.as_uint64 = v.stored_integer % 18446744073709551616 ∧
    (-2147483648 ≤ v.as_int ∧ v.as_int < 2147483648 ∧
      (v.as_int - v.stored_integer) % 4294967296 = 0 ∧
      ∀ y : Int, -2147483648 ≤ y → y < 2147483648 →
        (y - v.stored_integer) % 4294967296 = 0 → y = v.as_int) ∧
    (-9223372036854775808 ≤ v.as_int64 ∧ v.as_int64 < 9223372036854775808 ∧
      (v.as_int64 - v.stored_integer) % 18446744073709551616 = 0 ∧
      ∀ y : Int, -9223372036854775808 ≤ y → y < 9223372036854775808 →
        (y - v.stored_integer) % 18446744073709551616 = 0 → y = v.as_int64) := by
  cases v <;> simp [DataValue.type, data_type.is_integer] at hk <;>
    simp only [in_range, int32_t_min, int32_t_max, uint32_t_min, uint32_t_max, int64_t_min,
      int64_t_max, uint64_t_min, uint64_t_max, decide_eq_true_eq] at hr <;>
    simp only [as_int, as_uint, as_int64, as_uint64, stored_integer, wrap_signed,
      wrap_unsigned, Nat.reduceSub, Int.reducePow] <;>
    refine ⟨?_, ?_, ⟨?_, ?_, ?_, ?_⟩, ?_, ?_, ?_, ?_⟩ <;>
    (try intro y h1 h2 h3) <;> first | trivial | omega

/-- The round trip of an `int32` through `as_uint()`:
`DataValue(DataValue(x).as_uint()).as_int() = x`. -/
theorem int32_through_uint (x : Int) (h1 : -2147483648 ≤ x) (h2 : x ≤ 2147483647) :
    (from_uint32 (from_int32 x).as_uint).in_range = true ∧
    (from_uint32 (from_int32 x).as_uint).as_int = x := by
  simp only [from_uint32, from_int32, as_uint, as_int, in_range, wrap_signed, wrap_unsigned,
    uint32_t_min, uint32_t_max, decide_eq_true_eq, Nat.reduceSub, Int.reducePow]
  omega

/-- C31: for a value that stores the integer `n` as Int32, UInt32, Int64 or
UInt64 (in the range of the stored type), `as_uint()` is `n mod 2^32`,
`as_uint64()` is `n mod 2^64`, `as_int()` is the integer of `[-2^31, 2^31)`
congruent to `n` modulo `2^32` and `as_int64()` the integer of `[-2^63, 2^63)`
congruent to `n` modulo `2^64`; and for every `int32` `x`,
`DataValue(DataValue(x).as_uint()).as_int() = x`. -/
theorem integer_accessors_wrap (v : DataValue) (x : Int) (hk : v.type.is_integer = true)
    (hr : v.in_range = true) :
    v.as_uint = v.stored_integer % 4294967296 ∧
    v.as_uint64 = v.stored_integer % 18446744073709551616 ∧
    (-2147483648 ≤ v.as_int ∧ v.as_int < 2147483648 ∧
      (v.as_int - v.stored_integer) % 4294967296 = 0 ∧
      ∀ y : Int, -2147483648 ≤ y → y < 2147483648 →
        (y - v.stored_integer) % 4294967296 = 0 → y = v.as_int) ∧
    (-9223372036854775808 ≤ v.as_int64 ∧ v.as_int64 < 9223372036854775808 ∧
      (v.as_int64 - v.stored_integer) % 18446744073709551616 = 0 ∧
      ∀ y : Int, -9223372036854775808 ≤ y → y < 9223372036854775808 →
        (y - v.stored_integer) % 18446744073709551616 = 0 → y = v.as_int64) ∧
    (-2147483648 ≤ x → x ≤ 2147483647 →
      (from_uint32 (from_int32 x).as_uint).as_int = x) :=
  have h := integer_accessors_kinds v hk hr
  ⟨h.1, h.2.1, h.2.2.1, h.2.2.2, fun h1 h2 => (int32_through_uint x h1 h2).2⟩

/-- Witness of C31: `DataValue(std::int32_t(-1))` read as unsigned, and the
round trip of an `int32` through `as_uint()`. -/
theorem integer_accessors_wrap_witness :
    (from_int32 (-1)).type.is_integer = true ∧ (from_int32 (-1)).in_range = true ∧
    (from_int32 (-1)).as_uint = 4294967295 ∧
    (from_int32 (-1)).as_uint64 = 18446744073709551615 ∧
    (from_uint32 (from_int32 (-1)).as_uint).as_int = -1 :=
  have h := integer_accessors_wrap (from_int32 (-1)) (-1) (by decide) (by decide)
  ⟨by decide, by decide, h.1.trans (by decide), h.2.1.trans (by decide),
    h.2.2.2.2 (by decide) (by decide)⟩

/-! ## Convertibility of Null -/

/-- C32: a Null value is convertible to every kind. -/
theorem null_convertable_to_all (t : data_type) :
    (from_type .type_null).is_convertable_to t = true ∧ null.is_convertable_to t = true := by
  cases t <;> exact ⟨rfl, rfl⟩

end DataValue

end serial

namespace serial

open DataValue

namespace DataTranslator

/-! ## Idempotence and bounds of translate -/

theorem target_mem_keys (m : List (String × Nat)) (key : String) (f : Nat)
    (h : map_find m key = some f) : key ∈ m.map Prod.fst :=
  (map_find_isSome_iff m key).mp (by rw [h]; rfl)

end DataTranslator

end serial

namespace serial

open DataValue

namespace DataTranslator

/-! ## Broadcast translation, structure by structure -/

/-- After `translate_uniform` with `size > 1`, each structure at an index `i`
with `1 <= i < size` holds what the structure at index `i - 1` held when the
`memcpy` started: the translated first structure for `i = 1`, the former
structure `i - 1` for `i >= 2`. -/
theorem translate_uniform_shift (tr : DataTranslator) (objects : Nat → value_type)
    (size : Int) (data : DataValue) (i : Nat) (h1 : 1 ≤ i) (h2 : (i : Int) < size) :
    (tr.translate_uniform objects size data).1 i =
      if i = 1 then (tr.translate (objects 0) data).1 else objects (i - 1) := by
  have hs : size > 1 := by omega
  have hi : i < 1 + (size - 1).toNat := by omega
  unfold translate_uniform
  simp only [hs, if_true, memcpy, h1, hi, and_self, Nat.zero_add]
  by_cases h : i = 1
  · subst h
    simp [Function.update]
  · have h0 : i - 1 ≠ 0 := by omega
    simp [h, Function.update, h0]

/-- C35 (failing input): three structures whose `int` field 0 holds 0, 1 and 2,
a translator without bindings and a Null node.  `translate_uniform` returns 0;
afterwards the second structure equals the first (`int` field 0), but the third
holds 1, the former content of the second, and not the 0 of the first. -/
theorem translate_uniform_third :
    (numbered_instances 0).int_fields 0 = 0 ∧ (numbered_instances 1).int_fields 0 = 1 ∧
    (numbered_instances 2).int_fields 0 = 2 ∧
    from_type .type_null = node.constructed null ∧
    (init.translate_uniform numbered_instances 3 null).2 = 0 ∧
    ((init.translate_uniform numbered_instances 3 null).1 0).int_fields 0 = 0 ∧
    ((init.translate_uniform numbered_instances 3 null).1 1).int_fields 0 = 0 ∧
    ((init.translate_uniform numbered_instances 3 null).1 2).int_fields 0 = 1 := by
  refine ⟨by decide, by decide, by decide, rfl, by decide, by decide, by decide, by decide⟩

end DataTranslator

/-! ## Named add_member -/

/-- The length of the map after `m[key] = v`: unchanged when `key` has an entry
(the entries being in key order), one more when it has none. -/
theorem map_assign_length {V : Type} (m : List (String × V)) (key : String) (v : V) :
    (sorted_keys m → key ∈ m.map Prod.fst → (map_assign m key v).length = m.length) ∧
    (key ∉ m.map Prod.fst → (map_assign m key v).length = m.length + 1) := by
  induction m with
  | nil => simp [map_assign]
  | cons x rest ih =>
    obtain ⟨k, w⟩ := x
    simp only [map_assign]
    by_cases h1 : key_less key k = true
    · simp only [h1, if_true]
      refine ⟨?_, fun _ => by simp⟩
      intro hs hmem
      unfold sorted_keys at hs
      rw [List.pairwise_cons] at hs
      exfalso
      rcases List.mem_cons.mp hmem with h | h
      · rw [h] at h1
        simp only [key_less_irrefl, Bool.false_eq_true] at h1
      · obtain ⟨y, hy, hyk⟩ := List.mem_map.mp h
        have h2 := key_less_trans _ _ _ h1 (hs.1 y hy)
        rw [hyk, key_less_irrefl] at h2
        exact Bool.false_ne_true h2
    · have h1f : key_less key k = false := by simpa using h1
      by_cases h2 : key_less k key = true
      · have hk : key ≠ k := by
          intro h
          rw [h, key_less_irrefl] at h2
          exact Bool.false_ne_true h2
        simp only [h1f, h2, if_true, Bool.false_eq_true, if_false, List.length_cons,
          List.map_cons, List.mem_cons, hk, false_or]
        refine ⟨?_, ?_⟩
        · intro hs hmem
          unfold sorted_keys at hs
          rw [List.pairwise_cons] at hs
          rw [ih.1 hs.2 hmem]
        · intro hmem
          rw [ih.2 hmem]
      · have h2f : key_less k key = false := by simpa using h2
        have hk : key = k := key_less_connex _ _ h1f h2f
        subst hk
        simp [key_less_irrefl]

namespace DataValue

/-- On an Object `x`, `x.add_member(n, v)` gives an Object whose keys are `n`
and the keys of `x`; the entry of `n` is the copy of `v`; adding a name that
`x` already has leaves `size()` as it was, while a new name increases it by
one; and the entries stay in key order. -/
theorem add_named_member_on_object (m : List (String × DataValue)) (n : String)
    (v : DataValue) :
    ∃ built : DataValue,
      (object m).add_named_member n v = some built ∧
      built.type = .type_object ∧
      (∀ k, built.has_member k = true ↔ (k = n ∨ (object m).has_member k = true)) ∧
      built.at_name n = .returned (copy v) built ∧
      (sorted_keys m → (object m).has_member n = true → built.size = (object m).size) ∧
      ((object m).has_member n = false → built.size = (object m).size + 1) ∧
      (sorted_keys m → sorted_keys built.m_object) := by
  refine ⟨object (map_assign m n (copy v)), add_named_member_object m n v, rfl, ?_, ?_, ?_,
    ?_, ?_⟩
  · intro k
    simp only [has_member, map_find_isSome_iff, map_assign_keys]
  · simp [at_name, map_find_assign_self]
  · intro hs hm
    simp only [size]
    exact (map_assign_length m n (copy v)).1 hs
      ((map_find_isSome_iff m n).mp (by simpa [has_member] using hm))
  · intro hm
    simp only [size]
    refine (map_assign_length m n (copy v)).2 ?_
    intro hmem
    have h2 := (map_find_isSome_iff m n).mpr hmem
    simp only [has_member] at hm
    rw [hm] at h2
    exact Bool.false_ne_true h2
  · intro hs
    exact map_assign_sorted _ _ _ hs

/-- C36 (failing input): on the Int32 node `DataValue(5)`, on a String, on an
Array of two elements and on a fresh Null node, `set_object()` leaves the node
bare and `add_member("a", DataValue(true))` has no defined result.  On the
Object `{a: 1}` the same call replaces the entry and keeps the size, and adding
`b` gives the keys `a`, `b`. -/
theorem add_named_member_non_object_receiver :
    (from_int32 5).set_object = node.bare_object ∧
    (from_int32 5).add_named_member "a" (from_bool true) = none ∧
    (null.set_string "s").add_named_member "a" (from_bool true) = none ∧
    (array [int 1, int 2]).add_named_member "a" (from_bool true) = none ∧
    null.add_named_member "a" (from_bool true) = none ∧
    (object [("a", int 1)]).add_named_member "a" (from_bool true) =
      some (object [("a", bool true)]) ∧
    (object [("a", bool true)]).size = (object [("a", int 1)]).size ∧
    (object [("a", int 1)]).add_named_member "b" (from_bool true) =
      some (object [("a", int 1), ("b", bool true)]) := by
  refine ⟨rfl, rfl, rfl, rfl, rfl, rfl, rfl, rfl⟩

end DataValue

end serial
